import Mathlib

/-!
Shallow embedding of the grade/result computation engine of the
university dashboard backend (`services/assessment_grade_service.py`,
`repositories/assessment_grade_repository.py`, and the entities they
touch).  Python `Decimal`/float arithmetic is modelled over `ℚ`;
Python's `round(x, 2)` (round-half-to-even) is `pyRound2`; the
relational store is a record of lists, SQL joins become list
comprehensions, and raised `HTTPException`s become an `ApiError`
value returned together with the (unchanged) store.
-/

namespace UniDash

/-- Python's banker's rounding to 2 decimal places, over exact rationals. -/
def pyRound2 (x : ℚ) : ℚ :=
  let y := x * 100
  let f : ℤ := y.floor
  let r := y - (f : ℚ)
  let n : ℤ :=
    if r < 1 / 2 then f
    else if 1 / 2 < r then f + 1
    else if f % 2 = 0 then f else f + 1
  (n : ℚ) / 100

/-- `_percentage_to_grade` from `assessment_grade_service.py`:
grade point is `min(round(percentage / 10, 2), 10.0)` and the letter
comes from the fixed threshold chain. -/
def percentage_to_grade (percentage : ℚ) : ℚ × String :=
  let gp := min (pyRound2 (percentage / 10)) 10
  if percentage ≥ 90 then (gp, "O")
  else if percentage ≥ 80 then (gp, "A+")
  else if percentage ≥ 70 then (gp, "A")
  else if percentage ≥ 60 then (gp, "B+")
  else if percentage ≥ 50 then (gp, "B")
  else if percentage ≥ 40 then (gp, "C")
  else (gp, "F")

-- ── Entities (`entities/*.py`), restricted to the fields this logic reads ──

structure Assessment where
  id : ℤ
  course_offering_id : ℤ
  max_marks : ℚ
  weightage : ℚ
  deriving DecidableEq, Repr

structure Course where
  id : ℤ
  name : String
  code : String
  credits : ℕ
  deriving DecidableEq, Repr

structure Enrollment where
  id : ℤ
  student_id : ℤ
  deriving DecidableEq, Repr

structure CourseOffering where
  id : ℤ
  semester : ℤ
  deriving DecidableEq, Repr

structure Grades where
  id : ℤ
  enrollment_id : ℤ
  course_id : ℤ
  assessment_id : ℤ
  marks_obtained : ℚ
  remarks : Option String
  graded_by : String
  deriving DecidableEq, Repr

inductive ResultStatus where
  | PASS
  | FAIL
  | PROMOTED
  | DETAINED
  deriving DecidableEq, Repr

structure SemesterResults where
  enrollment_id : ℤ
  student_id : ℤ
  acedamic_year : String
  semester : ℤ
  gpa : ℚ
  cgpa : ℚ
  total_credits_attempted : Option ℕ
  total_credits_earned : Option ℕ
  status : ResultStatus
  deriving DecidableEq, Repr

structure Student where
  id : ℤ
  semester : ℤ
  cgpa : Option ℚ
  deriving DecidableEq, Repr

/-- The relational store the grade/result engine touches. -/
structure DB where
  assessments : List Assessment
  courses : List Course
  enrollments : List Enrollment
  course_offerings : List CourseOffering
  grades : List Grades
  semester_results : List SemesterResults
  students : List Student
  deriving DecidableEq, Repr

-- ── Error taxonomy (HTTPException status codes 404 / 400 / 409) ──

inductive ApiError where
  | notFound (detail : String)
  | invalidInput (detail : String)
  | conflict (detail : String)
  deriving DecidableEq, Repr

-- ── Repository (`repositories/assessment_grade_repository.py`) ──

def find_assessment_by_id (db : DB) (assessment_id : ℤ) : Option Assessment :=
  db.assessments.find? fun a => a.id == assessment_id

def find_grade_by_id (db : DB) (grade_id : ℤ) : Option Grades :=
  db.grades.find? fun g => g.id == grade_id

def find_grade_by_enrollment_assessment (db : DB) (enrollment_id assessment_id : ℤ) :
    Option Grades :=
  db.grades.find? fun g =>
    g.enrollment_id == enrollment_id && g.assessment_id == assessment_id

def find_enrollment_by_id (db : DB) (enrollment_id : ℤ) : Option Enrollment :=
  db.enrollments.find? fun e => e.id == enrollment_id

def find_student_by_id (db : DB) (student_id : ℤ) : Option Student :=
  db.students.find? fun s => s.id == student_id

def find_students_in_semester (db : DB) (semester : ℤ) : List Student :=
  db.students.filter fun s => s.semester == semester

/-- The inner join of `get_student_course_grades_for_semester`, before
grouping: Grades ⋈ Assessment ⋈ Course ⋈ Enrollment ⋈ CourseOffering,
restricted to the given student and semester. -/
def semesterJoin (db : DB) (student_id semester : ℤ) :
    List (Grades × Assessment × Course) :=
  db.grades.flatMap fun g =>
    (db.assessments.filter fun a => a.id == g.assessment_id).flatMap fun a =>
      (db.courses.filter fun c => c.id == g.course_id).flatMap fun c =>
        (db.enrollments.filter fun e => e.id == g.enrollment_id).flatMap fun e =>
          (db.course_offerings.filter fun o => o.id == a.course_offering_id).filterMap
            fun o =>
              if e.student_id == student_id && o.semester == semester then
                some (g, a, c)
              else none

/-- One row of the grouped query result: a course the student has marks in,
with the weighted percentage `SUM(marks_obtained / max_marks * weightage)`. -/
structure CourseGradeRow where
  course_id : ℤ
  course_name : String
  course_code : String
  credits : ℕ
  weighted_percentage : ℚ
  deriving DecidableEq, Repr

/-- `get_student_course_grades_for_semester`: GROUP BY
(course id, name, code, credits) with the weighted-percentage SUM. -/
def get_student_course_grades_for_semester (db : DB) (student_id semester : ℤ) :
    List CourseGradeRow :=
  let rows := semesterJoin db student_id semester
  ((rows.map fun r => r.2.2).dedup).map fun c =>
    { course_id := c.id
      course_name := c.name
      course_code := c.code
      credits := c.credits
      weighted_percentage :=
        ((rows.filter fun r => r.2.2 == c).map fun r =>
          r.1.marks_obtained / r.2.1.max_marks * r.2.1.weightage).sum }

def student_results (db : DB) (student_id : ℤ) : List SemesterResults :=
  db.semester_results.filter fun r => r.student_id == student_id

/-- `get_semester_results_for_student`: the student's SemesterResult rows,
ordered by semester. -/
def get_semester_results_for_student (db : DB) (student_id : ℤ) :
    List SemesterResults :=
  List.insertionSort (fun a b => a.semester ≤ b.semester) (student_results db student_id)

def find_semester_result (db : DB) (student_id semester : ℤ) :
    Option SemesterResults :=
  db.semester_results.find? fun r =>
    r.student_id == student_id && r.semester == semester

/-- `find_enrollment_id_for_student_semester`: any enrollment id appearing in
the student's grades for the semester (`LIMIT 1`). -/
def find_enrollment_id_for_student_semester (db : DB) (student_id semester : ℤ) :
    Option ℤ :=
  (db.grades.flatMap fun g =>
    (db.assessments.filter fun a => a.id == g.assessment_id).flatMap fun a =>
      (db.course_offerings.filter fun o => o.id == a.course_offering_id).flatMap fun o =>
        (db.enrollments.filter fun e => e.id == g.enrollment_id).filterMap fun e =>
          if e.student_id == student_id && o.semester == semester then
            some g.enrollment_id
          else none).head?

/-- Auto-increment id for a freshly inserted Grade row. -/
def next_grade_id (db : DB) : ℤ :=
  (db.grades.map Grades.id).foldl max 0 + 1

-- ── Request / response schemas (`schemas/assessment_grade_schemas.py`) ──

structure GradeCreateRequest where
  enrollment_id : ℤ
  course_id : ℤ
  assessment_id : ℤ
  marks_obtained : ℚ
  remarks : Option String
  deriving DecidableEq, Repr

/-- `GradeUpdateRequest` with `exclude_unset` semantics: `none` = field absent. -/
structure GradeUpdateRequest where
  marks_obtained : Option ℚ
  remarks : Option String
  deriving DecidableEq, Repr

structure BulkGradeItem where
  enrollment_id : ℤ
  marks_obtained : ℚ
  remarks : Option String
  deriving DecidableEq, Repr

structure BulkGradeRequest where
  assessment_id : ℤ
  course_id : ℤ
  items : List BulkGradeItem
  deriving DecidableEq, Repr

structure BulkGradeResultItem where
  enrollment_id : ℤ
  success : Bool
  message : String
  deriving DecidableEq, Repr

structure BulkGradeResponse where
  total : ℕ
  successful : ℕ
  failed : ℕ
  results : List BulkGradeResultItem
  deriving DecidableEq, Repr

structure CourseGradeItem where
  course_id : ℤ
  course_name : String
  course_code : String
  credits : ℕ
  weighted_percentage : ℚ
  grade_point : ℚ
  grade_letter : String
  deriving DecidableEq, Repr

structure SGPAResponse where
  student_id : ℤ
  semester : ℤ
  courses : List CourseGradeItem
  total_credits : ℕ
  sgpa : ℚ
  deriving DecidableEq, Repr

structure SemesterGPAItem where
  semester : ℤ
  gpa : ℚ
  credits : ℕ
  deriving DecidableEq, Repr

structure CGPAResponse where
  student_id : ℤ
  semesters : List SemesterGPAItem
  total_credits : ℕ
  cgpa : ℚ
  deriving DecidableEq, Repr

structure PublishResultItem where
  student_id : ℤ
  success : Bool
  message : String
  gpa : Option ℚ
  deriving DecidableEq, Repr

structure PublishResultsResponse where
  total : ℕ
  published : ℕ
  failed : ℕ
  results : List PublishResultItem
  deriving DecidableEq, Repr

-- ── GradeService (`services/assessment_grade_service.py`) ──
-- Each state-touching operation returns the (possibly updated) store next to
-- its outcome; an error is raised before any write, so on the error side the
-- store comes back untouched.

/-- `GradeService.submit_grade`. -/
def submit_grade (db : DB) (data : GradeCreateRequest) (graded_by : String) :
    DB × Except ApiError Grades :=
  match find_enrollment_by_id db data.enrollment_id with
  | none => (db, .error (.notFound "Enrollment not found"))
  | some _ =>
    match find_assessment_by_id db data.assessment_id with
    | none => (db, .error (.notFound "Assessment not found"))
    | some assessment =>
      if data.marks_obtained > assessment.max_marks then
        (db, .error (.invalidInput "Marks obtained cannot exceed max marks"))
      else
        match find_grade_by_enrollment_assessment db data.enrollment_id
            data.assessment_id with
        | some _ =>
          (db, .error (.conflict "Grade already submitted for this enrollment and assessment"))
        | none =>
          let grade : Grades :=
            { id := next_grade_id db
              enrollment_id := data.enrollment_id
              course_id := data.course_id
              assessment_id := data.assessment_id
              marks_obtained := data.marks_obtained
              remarks := data.remarks
              graded_by := graded_by }
          ({ db with grades := db.grades ++ [grade] }, .ok grade)

/-- `GradeService.update_grade`. -/
def update_grade (db : DB) (id : ℤ) (data : GradeUpdateRequest) (graded_by : String) :
    DB × Except ApiError Grades :=
  match find_grade_by_id db id with
  | none => (db, .error (.notFound "Grade not found"))
  | some grade =>
    if data.marks_obtained.isNone && data.remarks.isNone then
      (db, .error (.invalidInput "No fields to update"))
    else
      let marksRejected : Bool :=
        match data.marks_obtained with
        | none => false
        | some m =>
          match find_assessment_by_id db grade.assessment_id with
          | some assessment => m > assessment.max_marks
          | none => false
      if marksRejected then
        (db, .error (.invalidInput "Marks obtained cannot exceed max marks"))
      else
        let updated : Grades :=
          { grade with
            marks_obtained := data.marks_obtained.getD grade.marks_obtained
            remarks := match data.remarks with
              | some r => some r
              | none => grade.remarks
            graded_by := graded_by }
        ({ db with grades := db.grades.map fun g => if g.id == id then updated else g },
          .ok updated)

/-- `GradeService._process_bulk_grade_item`. -/
def process_bulk_grade_item (db : DB) (item : BulkGradeItem) (assessment : Assessment)
    (course_id : ℤ) (graded_by : String) : DB × BulkGradeResultItem :=
  match find_enrollment_by_id db item.enrollment_id with
  | none =>
    (db, { enrollment_id := item.enrollment_id, success := false
           message := "Enrollment not found" })
  | some _ =>
    if item.marks_obtained > assessment.max_marks then
      (db, { enrollment_id := item.enrollment_id, success := false
             message := "Marks exceed max marks" })
    else
      match find_grade_by_enrollment_assessment db item.enrollment_id assessment.id with
      | some _ =>
        (db, { enrollment_id := item.enrollment_id, success := false
               message := "Grade already exists for this assessment" })
      | none =>
        let grade : Grades :=
          { id := next_grade_id db
            enrollment_id := item.enrollment_id
            course_id := course_id
            assessment_id := assessment.id
            marks_obtained := item.marks_obtained
            remarks := item.remarks
            graded_by := graded_by }
        ({ db with grades := db.grades ++ [grade] },
          { enrollment_id := item.enrollment_id, success := true
            message := "Grade submitted successfully" })

/-- The sequential per-item loop of `bulk_submit_grades`, threading the store
and accumulating the result list plus the successful/failed counters. -/
def bulk_loop (db : DB) (items : List BulkGradeItem) (assessment : Assessment)
    (course_id : ℤ) (graded_by : String) :
    DB × List BulkGradeResultItem × ℕ × ℕ :=
  match items with
  | [] => (db, [], 0, 0)
  | item :: rest =>
    let step := process_bulk_grade_item db item assessment course_id graded_by
    let tail := bulk_loop step.1 rest assessment course_id graded_by
    (tail.1, step.2 :: tail.2.1,
      (if step.2.success then tail.2.2.1 + 1 else tail.2.2.1),
      (if step.2.success then tail.2.2.2 else tail.2.2.2 + 1))

/-- `GradeService.bulk_submit_grades`. -/
def bulk_submit_grades (db : DB) (data : BulkGradeRequest) (graded_by : String) :
    DB × Except ApiError BulkGradeResponse :=
  match find_assessment_by_id db data.assessment_id with
  | none => (db, .error (.notFound "Assessment not found"))
  | some assessment =>
    let finish := bulk_loop db data.items assessment data.course_id graded_by
    (finish.1, .ok
      { total := data.items.length
        successful := finish.2.2.1
        failed := finish.2.2.2
        results := finish.2.1 })

/-- `GradeService.calculate_sgpa`. -/
def calculate_sgpa (db : DB) (student_id semester : ℤ) :
    Except ApiError SGPAResponse :=
  match find_student_by_id db student_id with
  | none => .error (.notFound "Student not found")
  | some _ =>
    let rows := get_student_course_grades_for_semester db student_id semester
    if rows.isEmpty then
      .error (.notFound "No grades found for this student in the given semester")
    else
      let courses := rows.map fun row =>
        { course_id := row.course_id
          course_name := row.course_name
          course_code := row.course_code
          credits := row.credits
          weighted_percentage := pyRound2 row.weighted_percentage
          grade_point := (percentage_to_grade row.weighted_percentage).1
          grade_letter := (percentage_to_grade row.weighted_percentage).2
          : CourseGradeItem }
      let total_credits := (rows.map CourseGradeRow.credits).sum
      let weighted_sum := (rows.map fun row =>
        (row.credits : ℚ) * (percentage_to_grade row.weighted_percentage).1).sum
      let sgpa := if 0 < total_credits then pyRound2 (weighted_sum / (total_credits : ℚ)) else 0
      .ok { student_id := student_id, semester := semester, courses := courses
            total_credits := total_credits, sgpa := sgpa }

/-- `GradeService.calculate_cgpa`. -/
def calculate_cgpa (db : DB) (student_id : ℤ) : Except ApiError CGPAResponse :=
  match find_student_by_id db student_id with
  | none => .error (.notFound "Student not found")
  | some _ =>
    let rows := get_semester_results_for_student db student_id
    if rows.isEmpty then
      .error (.notFound "No semester results found for this student")
    else
      let semesters := rows.map fun r =>
        { semester := r.semester
          gpa := pyRound2 r.gpa
          credits := r.total_credits_attempted.getD 0
          : SemesterGPAItem }
      let total_credits := (rows.map fun r => r.total_credits_attempted.getD 0).sum
      let weighted_sum := (rows.map fun r =>
        ((r.total_credits_attempted.getD 0 : ℕ) : ℚ) * r.gpa).sum
      let cgpa := if 0 < total_credits then pyRound2 (weighted_sum / (total_credits : ℚ)) else 0
      .ok { student_id := student_id, semesters := semesters
            total_credits := total_credits, cgpa := cgpa }

-- ── Result Publisher ──

/-- Per-course aggregation of `_publish_student_result`'s first loop:
total credits, credit-weighted grade-point sum, and credits earned
(courses whose letter is not "F"). -/
def course_totals (rows : List CourseGradeRow) : ℕ × ℚ × ℕ :=
  ((rows.map CourseGradeRow.credits).sum,
    (rows.map fun row =>
      (row.credits : ℚ) * (percentage_to_grade row.weighted_percentage).1).sum,
    ((rows.filter fun row =>
      (percentage_to_grade row.weighted_percentage).2 ≠ "F").map
        CourseGradeRow.credits).sum)

/-- Everything `_publish_student_result` computes before it writes: the
semester GPA, the PASS/FAIL status, the credit totals, and the inline CGPA
that folds this semester in with every *other* already-persisted semester. -/
structure PublishComputation where
  gpa : ℚ
  cgpa : ℚ
  total_credits : ℕ
  credits_earned : ℕ
  status : ResultStatus
  deriving DecidableEq, Repr

/-- The computation section of `_publish_student_result` (its two loops). -/
def publish_computation (db : DB) (student_id semester : ℤ) : PublishComputation :=
  let rows := get_student_course_grades_for_semester db student_id semester
  let total_credits := (course_totals rows).1
  let weighted_sum := (course_totals rows).2.1
  let credits_earned := (course_totals rows).2.2
  let gpa := if 0 < total_credits then pyRound2 (weighted_sum / (total_credits : ℚ)) else 0
  let result_status :=
    if credits_earned = total_credits then ResultStatus.PASS else ResultStatus.FAIL
  let others := (get_semester_results_for_student db student_id).filter
    fun r => r.semester ≠ semester
  let cgpa_credits := total_credits +
    (others.map fun r => r.total_credits_attempted.getD 0).sum
  let cgpa_sum := (total_credits : ℚ) * gpa +
    (others.map fun r =>
      ((r.total_credits_attempted.getD 0 : ℕ) : ℚ) * r.gpa).sum
  let cgpa := if 0 < cgpa_credits then pyRound2 (cgpa_sum / (cgpa_credits : ℚ)) else 0
  { gpa := gpa, cgpa := cgpa, total_credits := total_credits
    credits_earned := credits_earned, status := result_status }

/-- The field assignments of the update arm of the upsert: overwrite gpa,
cgpa, credit totals and status in place, keep everything else. -/
def apply_result_fields (r : SemesterResults) (c : PublishComputation) :
    SemesterResults :=
  { r with gpa := c.gpa, cgpa := c.cgpa
           total_credits_attempted := some c.total_credits
           total_credits_earned := some c.credits_earned
           status := c.status }

/-- The fresh row of the insert arm of the upsert. -/
def fresh_semester_result (student_id semester enrollment_id : ℤ)
    (academic_year : String) (c : PublishComputation) : SemesterResults :=
  { enrollment_id := enrollment_id
    student_id := student_id
    acedamic_year := academic_year
    semester := semester
    gpa := c.gpa
    cgpa := c.cgpa
    total_credits_attempted := some c.total_credits
    total_credits_earned := some c.credits_earned
    status := c.status }

/-- The upsert section of `_publish_student_result`: update the existing
SemesterResult row in place if one exists, else insert a fresh one. -/
def upsert_semester_result (db : DB) (student_id semester enrollment_id : ℤ)
    (academic_year : String) (c : PublishComputation) : DB :=
  match find_semester_result db student_id semester with
  | some _ =>
    { db with semester_results := db.semester_results.map fun r =>
        if r.student_id == student_id && r.semester == semester then
          apply_result_fields r c
        else r }
  | none =>
    { db with semester_results := db.semester_results ++
        [fresh_semester_result student_id semester enrollment_id academic_year c] }

/-- The final section of `_publish_student_result`: overwrite the denormalized
`Student.cgpa` field. -/
def overwrite_student_cgpa (db : DB) (student_id : ℤ) (cgpa : ℚ) : DB :=
  match find_student_by_id db student_id with
  | some _ =>
    { db with students := db.students.map fun s =>
        if s.id == student_id then { s with cgpa := some cgpa } else s }
  | none => db

/-- `GradeService._publish_student_result`. -/
def publish_student_result (db : DB) (student_id semester : ℤ)
    (academic_year : String) : DB × PublishResultItem :=
  let rows := get_student_course_grades_for_semester db student_id semester
  if rows.isEmpty then
    (db, { student_id := student_id, success := false
           message := "No grades found for this semester", gpa := none })
  else
    match find_enrollment_id_for_student_semester db student_id semester with
    | none =>
      (db, { student_id := student_id, success := false
             message := "Could not find enrollment for this semester", gpa := none })
    | some enrollment_id =>
      let c := publish_computation db student_id semester
      let db1 := upsert_semester_result db student_id semester enrollment_id
        academic_year c
      let db2 := overwrite_student_cgpa db1 student_id c.cgpa
      (db2, { student_id := student_id, success := true
              message := "Results published successfully", gpa := some c.gpa })

/-- The sequential per-student loop of `publish_results`. -/
def publish_loop (db : DB) (students : List Student) (semester : ℤ)
    (academic_year : String) : DB × List PublishResultItem × ℕ × ℕ :=
  match students with
  | [] => (db, [], 0, 0)
  | s :: rest =>
    let step := publish_student_result db s.id semester academic_year
    let tail := publish_loop step.1 rest semester academic_year
    (tail.1, step.2 :: tail.2.1,
      (if step.2.success then tail.2.2.1 + 1 else tail.2.2.1),
      (if step.2.success then tail.2.2.2 else tail.2.2.2 + 1))

/-- Cohort resolution at the top of `publish_results`; `if data.student_ids:`
is Python truthiness, so both `None` and the empty list fall back to every
student enrolled in the semester. -/
def resolve_cohort (db : DB) (semester : ℤ) (student_ids : Option (List ℤ)) :
    List Student :=
  match student_ids with
  | some ids =>
    if ids.isEmpty then find_students_in_semester db semester
    else ids.filterMap fun sid => find_student_by_id db sid
  | none => find_students_in_semester db semester

/-- `GradeService.publish_results`. -/
def publish_results (db : DB) (semester : ℤ) (academic_year : String)
    (student_ids : Option (List ℤ)) :
    DB × Except ApiError PublishResultsResponse :=
  let students := resolve_cohort db semester student_ids
  if students.isEmpty then
    (db, .error (.notFound "No students found for the given semester"))
  else
    let finish := publish_loop db students semester academic_year
    (finish.1, .ok
      { total := students.length
        published := finish.2.2.1
        failed := finish.2.2.2
        results := finish.2.1 })

-- ── Spec-side definitions (formalising the wording of the spec, to be
-- compared against the source-derived functions above) ──

/-- Letter grade exactly as the spec words it: fixed thresholds
≥90→O, ≥80→A+, ≥70→A, ≥60→B+, ≥50→B, ≥40→C, else F. -/
def grade_letter_spec (percentage : ℚ) : String :=
  if percentage ≥ 90 then "O"
  else if percentage ≥ 80 then "A+"
  else if percentage ≥ 70 then "A"
  else if percentage ≥ 60 then "B+"
  else if percentage ≥ 50 then "B"
  else if percentage ≥ 40 then "C"
  else "F"

/-- Grade point exactly as the spec words it:
`min(round(percentage / 10, 2), 10.0)`. -/
def grade_point_spec (percentage : ℚ) : ℚ :=
  min (pyRound2 (percentage / 10)) 10

-- ── Invariants and derived predicates ──

/-- At most one Grade per (enrollment, assessment) pair. -/
def grades_pair_unique (db : DB) : Prop :=
  ∀ e a : ℤ,
    (db.grades.filter fun g =>
      g.enrollment_id == e && g.assessment_id == a).length ≤ 1

/-- Every persisted mark stays within its assessment's max marks. -/
def marks_within_max (db : DB) : Prop :=
  ∀ g ∈ db.grades, ∀ assessment,
    find_assessment_by_id db g.assessment_id = some assessment →
    g.marks_obtained ≤ assessment.max_marks

/-- At most one SemesterResult row for the (student, semester) pair. -/
def semester_result_unique (db : DB) (student_id semester : ℤ) : Prop :=
  (db.semester_results.filter fun r =>
    r.student_id == student_id && r.semester == semester).length ≤ 1

/-- Whether `_publish_student_result` reaches its success path; it depends
only on the grade-side tables, never on SemesterResults or Students. -/
def publish_ok (db : DB) (student_id semester : ℤ) : Bool :=
  !(get_student_course_grades_for_semester db student_id semester).isEmpty &&
    (find_enrollment_id_for_student_semester db student_id semester).isSome

/-- The tables `_publish_student_result` reads its grades from (and never
writes): everything except SemesterResults and Students. -/
def grade_side_eq (db₁ db₂ : DB) : Prop :=
  db₁.assessments = db₂.assessments ∧ db₁.courses = db₂.courses ∧
    db₁.enrollments = db₂.enrollments ∧
    db₁.course_offerings = db₂.course_offerings ∧ db₁.grades = db₂.grades

-- ── Concrete example data for witnesses and counterexamples ──

def exCourse : Course := { id := 1, name := "Algorithms", code := "CS101", credits := 4 }

def exOffering : CourseOffering := { id := 1, semester := 1 }

def exAssessment : Assessment :=
  { id := 1, course_offering_id := 1, max_marks := 100, weightage := 100 }

def exEnr1 : Enrollment := { id := 1, student_id := 1 }

def exEnr2 : Enrollment := { id := 2, student_id := 2 }

def exEnr3 : Enrollment := { id := 3, student_id := 3 }

def exGrade1 : Grades :=
  { id := 1, enrollment_id := 1, course_id := 1, assessment_id := 1
    marks_obtained := 85, remarks := none, graded_by := "fac1" }

def exGrade2 : Grades :=
  { id := 2, enrollment_id := 2, course_id := 1, assessment_id := 1
    marks_obtained := 30, remarks := none, graded_by := "fac1" }

def exStu1 : Student := { id := 1, semester := 1, cgpa := none }

def exStu2 : Student := { id := 2, semester := 1, cgpa := none }

def exStu3 : Student := { id := 3, semester := 1, cgpa := none }

/-- A small store: three students in semester 1, one course (4 credits), one
assessment (max 100, weightage 100); students 1 and 2 have a mark (85 and
30), student 3 has none; no SemesterResult rows yet. -/
def exDB : DB :=
  { assessments := [exAssessment]
    courses := [exCourse]
    enrollments := [exEnr1, exEnr2, exEnr3]
    course_offerings := [exOffering]
    grades := [exGrade1, exGrade2]
    semester_results := []
    students := [exStu1, exStu2, exStu3] }

/-- A duplicate submission for the (enrollment 1, assessment 1) pair that
`exGrade1` already occupies. -/
def exReqDup : GradeCreateRequest :=
  { enrollment_id := 1, course_id := 1, assessment_id := 1
    marks_obtained := 50, remarks := none }

/-- A fresh, valid submission for enrollment 3. -/
def exReqOk : GradeCreateRequest :=
  { enrollment_id := 3, course_id := 1, assessment_id := 1
    marks_obtained := 50, remarks := none }

/-- The Grade row `exReqOk` creates (`next_grade_id exDB = 3`). -/
def exGradeOk : Grades :=
  { id := 3, enrollment_id := 3, course_id := 1, assessment_id := 1
    marks_obtained := 50, remarks := none, graded_by := "fac1" }

/-- The example store after `exReqOk` is submitted. -/
def exDBOk : DB := { exDB with grades := [exGrade1, exGrade2, exGradeOk] }

/-- A submission with negative marks for enrollment 3. -/
def exReqNeg : GradeCreateRequest :=
  { enrollment_id := 3, course_id := 1, assessment_id := 1
    marks_obtained := -5, remarks := none }

/-- The Grade row `exReqNeg` creates: its marks are negative. -/
def exGradeNeg : Grades :=
  { id := 3, enrollment_id := 3, course_id := 1, assessment_id := 1
    marks_obtained := -5, remarks := none, graded_by := "fac1" }

/-- The example store after the negative-marks submission is accepted. -/
def exDBNeg : DB := { exDB with grades := [exGrade1, exGrade2, exGradeNeg] }

/-- A one-item bulk request mirroring `exReqOk`. -/
def exBulkItem : BulkGradeItem :=
  { enrollment_id := 3, marks_obtained := 50, remarks := none }

def exBulkReq : BulkGradeRequest :=
  { assessment_id := 1, course_id := 1, items := [exBulkItem] }

def exBulkResp : BulkGradeResponse :=
  { total := 1, successful := 1, failed := 0
    results := [{ enrollment_id := 3, success := true
                  message := "Grade submitted successfully" }] }

/-- An update lowering the first grade to 40 marks. -/
def exUpdReq : GradeUpdateRequest := { marks_obtained := some 40, remarks := none }

def exGradeUpd : Grades :=
  { id := 1, enrollment_id := 1, course_id := 1, assessment_id := 1
    marks_obtained := 40, remarks := none, graded_by := "fac2" }

def exDBUpd : DB := { exDB with grades := [exGradeUpd, exGrade2] }

-- ── Claim theorems ──

/-- C3: for every percentage, the percentage-to-grade conversion returns the
grade point `min(round(p / 10, 2), 10.0)` together with the letter given by
the fixed thresholds ≥90→O, ≥80→A+, ≥70→A, ≥60→B+, ≥50→B, ≥40→C, else F;
in particular it maps 90.0 to (9.0, "O"), 39.9 to (3.99, "F") and 100.0 to
(10.0, "O"). -/
theorem percentage_to_grade_correct :
    (∀ p : ℚ, percentage_to_grade p = (grade_point_spec p, grade_letter_spec p)) ∧
    percentage_to_grade 90 = (9, "O") ∧
    percentage_to_grade (399 / 10) = (399 / 100, "F") ∧
    percentage_to_grade 100 = (10, "O") := by
  refine ⟨fun p => ?_, ?_, ?_, ?_⟩
  · simp only [percentage_to_grade, grade_point_spec, grade_letter_spec]
    split_ifs <;> rfl
  · norm_num [percentage_to_grade, pyRound2, Rat.floor]
  · norm_num [percentage_to_grade, pyRound2, Rat.floor]
  · norm_num [percentage_to_grade, pyRound2, Rat.floor]

/-- C8: with the referenced enrollment and assessment present, a
`submit_grade` call whose marks exceed the assessment's max marks fails
InvalidInput and leaves the grade store untouched. -/
theorem submit_grade_rejects_excess_marks
    (db : DB) (data : GradeCreateRequest) (graded_by : String)
    (assessment : Assessment)
    (henr : (find_enrollment_by_id db data.enrollment_id).isSome = true)
    (hass : find_assessment_by_id db data.assessment_id = some assessment)
    (hm : data.marks_obtained > assessment.max_marks) :
    submit_grade db data graded_by =
      (db, .error (.invalidInput "Marks obtained cannot exceed max marks")) := by
  obtain ⟨e, he⟩ := Option.isSome_iff_exists.mp henr
  unfold submit_grade
  rw [he, hass]
  simp [hm]

/-- C8 witness: submitting 150 marks against the 100-max assessment of the
example store fails InvalidInput and returns the store unchanged. -/
theorem submit_grade_rejects_excess_marks_witness :
    submit_grade exDB
        { enrollment_id := 3, course_id := 1, assessment_id := 1
          marks_obtained := 150, remarks := none } "fac1" =
      (exDB, .error (.invalidInput "Marks obtained cannot exceed max marks")) :=
  submit_grade_rejects_excess_marks exDB
    { enrollment_id := 3, course_id := 1, assessment_id := 1
      marks_obtained := 150, remarks := none } "fac1" exAssessment
    (by rfl) (by rfl) (by norm_num [exAssessment])

/-- Helper: appending one element keeps a filter-count at most 1, provided
the element only matches filters that nothing in the list matched. -/
theorem filter_append_single_le {α} (l : List α) (p : α → Bool) (x : α)
    (hl : (l.filter p).length ≤ 1)
    (hx : p x = true → l.filter p = []) :
    ((l ++ [x]).filter p).length ≤ 1 := by
  rw [List.filter_append]
  cases hpx : p x with
  | false => simpa [hpx] using hl
  | true => simp [hpx, hx hpx]

/-- Helper: the example store satisfies the per-pair uniqueness invariant. -/
theorem exDB_pair_unique : grades_pair_unique exDB := by
  intro e a
  simp only [exDB, exGrade1, exGrade2, List.filter_cons, List.filter_nil]
  by_cases h1 : (((1:ℤ) == e) && ((1:ℤ) == a)) = true <;>
    by_cases h2 : (((2:ℤ) == e) && ((1:ℤ) == a)) = true <;>
    simp [h1, h2]
  exfalso
  simp only [Bool.and_eq_true, beq_iff_eq] at h1 h2
  omega

/-- Helper: submitting `exReqOk` against the example store succeeds and
appends `exGradeOk`. -/
theorem submit_exReqOk_eq : submit_grade exDB exReqOk "fac1" = (exDBOk, .ok exGradeOk) := by
  simp only [submit_grade,
    show find_enrollment_by_id exDB exReqOk.enrollment_id = some exEnr3 from rfl,
    show find_assessment_by_id exDB exReqOk.assessment_id = some exAssessment from rfl,
    show find_grade_by_enrollment_assessment exDB exReqOk.enrollment_id
      exReqOk.assessment_id = none from rfl]
  rw [if_neg (by norm_num [exReqOk, exAssessment] :
      ¬(exReqOk.marks_obtained > exAssessment.max_marks))]
  rfl

/-- C9: at most one Grade per (enrollment, assessment) pair — a successful
`submit_grade` preserves the per-pair uniqueness invariant — and a second
`submit_grade` call for a pair that already has a Grade (with the enrollment
and assessment present and the marks within range, so that no earlier check
fires) fails Conflict and leaves the store, hence the original row,
unchanged. -/
theorem submit_grade_conflict_on_duplicate :
    (∀ (db : DB) (data : GradeCreateRequest) (graded_by : String)
        (g₀ : Grades) (assessment : Assessment),
      find_grade_by_enrollment_assessment db data.enrollment_id data.assessment_id
          = some g₀ →
      (find_enrollment_by_id db data.enrollment_id).isSome = true →
      find_assessment_by_id db data.assessment_id = some assessment →
      data.marks_obtained ≤ assessment.max_marks →
      submit_grade db data graded_by =
        (db, .error
          (.conflict "Grade already submitted for this enrollment and assessment"))) ∧
    (∀ (db : DB) (data : GradeCreateRequest) (graded_by : String)
        (db' : DB) (g : Grades),
      grades_pair_unique db →
      submit_grade db data graded_by = (db', .ok g) →
      grades_pair_unique db') := by
  constructor
  · intro db data graded_by g₀ assessment hdup henr hass hm
    obtain ⟨e, he⟩ := Option.isSome_iff_exists.mp henr
    simp only [submit_grade, he, hass, hdup]
    rw [if_neg (not_lt.mpr hm)]
  · intro db data graded_by db' g huniq heq
    cases h1 : find_enrollment_by_id db data.enrollment_id with
    | none => simp [submit_grade, h1] at heq
    | some e =>
      cases h2 : find_assessment_by_id db data.assessment_id with
      | none => simp [submit_grade, h1, h2] at heq
      | some assessment =>
        by_cases h3 : data.marks_obtained > assessment.max_marks
        · simp [submit_grade, h1, h2, h3] at heq
        · cases h4 : find_grade_by_enrollment_assessment db data.enrollment_id
              data.assessment_id with
          | some gdup => simp [submit_grade, h1, h2, h3, h4] at heq
          | none =>
            simp only [submit_grade, h1, h2, h4, if_neg h3,
              Prod.mk.injEq, Except.ok.injEq] at heq
            obtain ⟨hdb, -⟩ := heq
            subst hdb
            intro e' a'
            apply filter_append_single_le _ _ _ (huniq e' a')
            intro hx
            simp only [Bool.and_eq_true, beq_iff_eq] at hx
            obtain ⟨hx1, hx2⟩ := hx
            rw [List.filter_eq_nil_iff]
            intro gg hgg
            have hnone : ∀ x ∈ db.grades,
                ¬(x.enrollment_id == data.enrollment_id &&
                  x.assessment_id == data.assessment_id) = true :=
              List.find?_eq_none.mp h4
            have := hnone gg hgg
            simp only [Bool.and_eq_true, beq_iff_eq] at this ⊢
            rw [← hx1, ← hx2]
            exact this

/-- C9 witness: against the example store, re-submitting the already-graded
(enrollment 1, assessment 1) pair fails Conflict with the store unchanged,
and the successful fresh submission for enrollment 3 preserves the per-pair
uniqueness invariant. -/
theorem submit_grade_conflict_on_duplicate_witness :
    submit_grade exDB exReqDup "fac1" =
      (exDB, .error
        (.conflict "Grade already submitted for this enrollment and assessment")) ∧
    grades_pair_unique exDBOk :=
  ⟨submit_grade_conflict_on_duplicate.1 exDB exReqDup "fac1" exGrade1 exAssessment
      rfl rfl rfl (by norm_num [exReqDup, exAssessment]),
    submit_grade_conflict_on_duplicate.2 exDB exReqOk "fac1" exDBOk exGradeOk
      exDB_pair_unique submit_exReqOk_eq⟩

/-- Helper: one bulk-grade item either fails and leaves the store untouched,
or succeeds, appends exactly one Grade for the given assessment whose marks
pass the max-marks check, and reports success. -/
theorem process_item_spec (db : DB) (item : BulkGradeItem) (assessment : Assessment)
    (cid : ℤ) (gb : String) :
    ((process_bulk_grade_item db item assessment cid gb).2.success = false ∧
      (process_bulk_grade_item db item assessment cid gb).1 = db) ∨
    ((process_bulk_grade_item db item assessment cid gb).2.success = true ∧
      (process_bulk_grade_item db item assessment cid gb).1 =
        { db with grades := db.grades ++
          [{ id := next_grade_id db, enrollment_id := item.enrollment_id
             course_id := cid, assessment_id := assessment.id
             marks_obtained := item.marks_obtained, remarks := item.remarks
             graded_by := gb }] } ∧
      item.marks_obtained ≤ assessment.max_marks) := by
  cases h1 : find_enrollment_by_id db item.enrollment_id with
  | none => left; simp [process_bulk_grade_item, h1]
  | some e =>
    by_cases h2 : item.marks_obtained > assessment.max_marks
    · left; simp [process_bulk_grade_item, h1, h2]
    · cases h3 : find_grade_by_enrollment_assessment db item.enrollment_id
          assessment.id with
      | some g => left; simp [process_bulk_grade_item, h1, h2, h3]
      | none =>
        right
        refine ⟨?_, ?_, not_lt.mp h2⟩ <;>
          simp [process_bulk_grade_item, h1, h2, h3]

/-- Helper: the per-item result always carries the enrollment id of the item. -/
theorem process_item_enrollment_id (db : DB) (item : BulkGradeItem)
    (assessment : Assessment) (cid : ℤ) (gb : String) :
    (process_bulk_grade_item db item assessment cid gb).2.enrollment_id =
      item.enrollment_id := by
  cases h1 : find_enrollment_by_id db item.enrollment_id with
  | none => simp [process_bulk_grade_item, h1]
  | some e =>
    by_cases h2 : item.marks_obtained > assessment.max_marks
    · simp [process_bulk_grade_item, h1, h2]
    · cases h3 : find_grade_by_enrollment_assessment db item.enrollment_id
          assessment.id with
      | some g => simp [process_bulk_grade_item, h1, h2, h3]
      | none => simp [process_bulk_grade_item, h1, h2, h3]

/-- C4 counterexample: `submit_grade` accepts a negative mark — the example
store takes marks −5 on the 100-max assessment without any error, and the
persisted row's marks are below 0, refuting the claim that every operation
rejects marks outside [0, max]. -/
theorem marks_lower_bound_not_enforced :
    submit_grade exDB exReqNeg "fac1" = (exDBNeg, .ok exGradeNeg) ∧
    exGradeNeg.marks_obtained < 0 ∧ exGradeNeg ∈ exDBNeg.grades := by
  refine ⟨?_, by norm_num [exGradeNeg], by simp [exDBNeg]⟩
  simp only [submit_grade,
    show find_enrollment_by_id exDB exReqNeg.enrollment_id = some exEnr3 from rfl,
    show find_assessment_by_id exDB exReqNeg.assessment_id = some exAssessment from rfl,
    show find_grade_by_enrollment_assessment exDB exReqNeg.enrollment_id
      exReqNeg.assessment_id = none from rfl]
  rw [if_neg (by norm_num [exReqNeg, exAssessment] :
      ¬(exReqNeg.marks_obtained > exAssessment.max_marks))]
  rfl

/-- Helper: appending one row whose marks respect its assessment keeps the
upper-bound invariant. -/
theorem marks_within_max_append (db : DB) (gnew : Grades)
    (hinv : marks_within_max db)
    (hnew : ∀ assessment, find_assessment_by_id db gnew.assessment_id = some assessment →
      gnew.marks_obtained ≤ assessment.max_marks) :
    marks_within_max { db with grades := db.grades ++ [gnew] } := by
  intro g hmem a hfind
  have hmem' : g ∈ db.grades ++ [gnew] := hmem
  rcases List.mem_append.mp hmem' with h | h
  · exact hinv g h a hfind
  · rcases List.mem_singleton.mp h with rfl
    exact hnew a hfind

/-- Helper: one bulk step keeps the assessments table unchanged. -/
theorem process_item_assessments (db : DB) (item : BulkGradeItem)
    (assessment : Assessment) (cid : ℤ) (gb : String) :
    (process_bulk_grade_item db item assessment cid gb).1.assessments =
      db.assessments := by
  rcases process_item_spec db item assessment cid gb with ⟨-, h⟩ | ⟨-, h, -⟩ <;> rw [h]

/-- Helper: the bulk loop keeps the upper-bound invariant, provided the
assessment it validates against is the one the store holds under its id. -/
theorem bulk_loop_preserves_marks (assessment : Assessment) (cid : ℤ) (gb : String)
    (items : List BulkGradeItem) :
    ∀ db : DB, marks_within_max db →
      find_assessment_by_id db assessment.id = some assessment →
      marks_within_max (bulk_loop db items assessment cid gb).1 := by
  induction items with
  | nil => intro db hinv _; exact hinv
  | cons item rest ih =>
    intro db hinv hfind
    show marks_within_max
      (bulk_loop (process_bulk_grade_item db item assessment cid gb).1
        rest assessment cid gb).1
    have hfind' : find_assessment_by_id
        (process_bulk_grade_item db item assessment cid gb).1 assessment.id =
        some assessment := by
      unfold find_assessment_by_id at hfind ⊢
      rw [process_item_assessments]
      exact hfind
    refine ih _ ?_ hfind'
    rcases process_item_spec db item assessment cid gb with ⟨-, h⟩ | ⟨-, h, hle⟩
    · rw [h]; exact hinv
    · rw [h]
      refine marks_within_max_append db _ hinv ?_
      intro a ha
      have : a = assessment := by
        rw [hfind] at ha
        exact (Option.some.inj ha).symm
      rw [this]
      exact hle

/-- C4 (amended): every operation that creates or changes a mark preserves
the upper-bound invariant marks_obtained ≤ assessment.max_marks (for
`update_grade`, checked only when the assessment row still exists); the
lower bound 0 of the original claim is not enforced anywhere. -/
theorem marks_upper_bound_preserved :
    (∀ (db : DB) (data : GradeCreateRequest) (graded_by : String)
        (db' : DB) (g : Grades),
      marks_within_max db → submit_grade db data graded_by = (db', .ok g) →
      marks_within_max db') ∧
    (∀ (db : DB) (data : BulkGradeRequest) (graded_by : String)
        (db' : DB) (resp : BulkGradeResponse),
      marks_within_max db → bulk_submit_grades db data graded_by = (db', .ok resp) →
      marks_within_max db') ∧
    (∀ (db : DB) (gid : ℤ) (data : GradeUpdateRequest) (graded_by : String)
        (db' : DB) (g : Grades),
      marks_within_max db → update_grade db gid data graded_by = (db', .ok g) →
      marks_within_max db') := by
  refine ⟨?_, ?_, ?_⟩
  · intro db data graded_by db' g hinv heq
    cases h1 : find_enrollment_by_id db data.enrollment_id with
    | none => simp [submit_grade, h1] at heq
    | some e =>
      cases h2 : find_assessment_by_id db data.assessment_id with
      | none => simp [submit_grade, h1, h2] at heq
      | some assessment =>
        by_cases h3 : data.marks_obtained > assessment.max_marks
        · simp [submit_grade, h1, h2, h3] at heq
        · cases h4 : find_grade_by_enrollment_assessment db data.enrollment_id
              data.assessment_id with
          | some gdup => simp [submit_grade, h1, h2, h3, h4] at heq
          | none =>
            simp only [submit_grade, h1, h2, h4, if_neg h3,
              Prod.mk.injEq, Except.ok.injEq] at heq
            obtain ⟨hdb, -⟩ := heq
            subst hdb
            refine marks_within_max_append db _ hinv ?_
            intro a ha
            have : a = assessment := by
              rw [h2] at ha
              exact (Option.some.inj ha).symm
            rw [this]
            exact not_lt.mp h3
  · intro db data graded_by db' resp hinv heq
    cases h1 : find_assessment_by_id db data.assessment_id with
    | none => simp [bulk_submit_grades, h1] at heq
    | some assessment =>
      simp only [bulk_submit_grades, h1, Prod.mk.injEq, Except.ok.injEq] at heq
      obtain ⟨hdb, -⟩ := heq
      subst hdb
      have hid : assessment.id = data.assessment_id := by
        have := List.find?_some h1
        exact beq_iff_eq.mp this
      refine bulk_loop_preserves_marks assessment data.course_id graded_by
        data.items db hinv ?_
      rw [hid]
      exact h1
  · intro db gid data graded_by db' g hinv heq
    cases h1 : find_grade_by_id db gid with
    | none => simp [update_grade, h1] at heq
    | some grade =>
      have hgrade_mem : grade ∈ db.grades := List.mem_of_find?_eq_some h1
      by_cases h2 : (data.marks_obtained.isNone && data.remarks.isNone) = true
      · simp [update_grade, h1, h2] at heq
      · have main : ∀ marks' : ℚ,
            (∀ a, find_assessment_by_id db grade.assessment_id = some a →
              marks' ≤ a.max_marks) →
            marks_within_max { db with grades := db.grades.map fun g0 =>
              if g0.id == gid then
                { grade with
                  marks_obtained := marks'
                  remarks := match data.remarks with
                    | some r => some r
                    | none => grade.remarks
                  graded_by := graded_by }
              else g0 } := by
          intro marks' hle g' hmem a hfind
          have hmem' : g' ∈ db.grades.map fun g0 =>
              if g0.id == gid then
                { grade with
                  marks_obtained := marks'
                  remarks := match data.remarks with
                    | some r => some r
                    | none => grade.remarks
                  graded_by := graded_by }
              else g0 := hmem
          rw [List.mem_map] at hmem'
          obtain ⟨g0, hg0, rfl⟩ := hmem'
          by_cases hid : (g0.id == gid) = true
          · rw [if_pos hid] at hfind ⊢
            exact hle a hfind
          · rw [if_neg (by simpa using hid)] at hfind ⊢
            exact hinv g0 hg0 a hfind
        simp only [update_grade, h1] at heq
        rw [if_neg h2] at heq
        cases hm : data.marks_obtained with
        | none =>
          rw [hm] at heq
          simp only [Option.getD_none, if_neg Bool.false_ne_true,
            Prod.mk.injEq, Except.ok.injEq] at heq
          obtain ⟨hdb, -⟩ := heq
          subst hdb
          exact main grade.marks_obtained
            (fun a ha => hinv grade hgrade_mem a ha)
        | some m =>
          rw [hm] at heq
          cases ha : find_assessment_by_id db grade.assessment_id with
          | none =>
            rw [ha] at heq
            simp only [Option.getD_some, if_neg Bool.false_ne_true,
              Prod.mk.injEq, Except.ok.injEq] at heq
            obtain ⟨hdb, -⟩ := heq
            subst hdb
            exact main m (fun a hfind => by rw [ha] at hfind; cases hfind)
          | some a₀ =>
            rw [ha] at heq
            by_cases h3 : m > a₀.max_marks
            · simp [decide_eq_true h3] at heq
            · simp only [decide_eq_false h3, Option.getD_some,
                if_neg Bool.false_ne_true, Prod.mk.injEq, Except.ok.injEq] at heq
              obtain ⟨hdb, -⟩ := heq
              subst hdb
              refine main m ?_
              intro a hfind
              have : a = a₀ := by
                rw [ha] at hfind
                exact (Option.some.inj hfind).symm
              rw [this]
              exact not_lt.mp h3

/-- Helper: the example store satisfies the marks upper-bound invariant. -/
theorem exDB_marks_ok : marks_within_max exDB := by
  intro g hmem a hfind
  have hm : g ∈ [exGrade1, exGrade2] := hmem
  rcases List.mem_cons.mp hm with rfl | hm2
  · rw [show find_assessment_by_id exDB exGrade1.assessment_id =
        some exAssessment from rfl] at hfind
    obtain rfl := Option.some.inj hfind
    norm_num [exGrade1, exAssessment]
  · rcases List.mem_singleton.mp hm2 with rfl
    rw [show find_assessment_by_id exDB exGrade2.assessment_id =
        some exAssessment from rfl] at hfind
    obtain rfl := Option.some.inj hfind
    norm_num [exGrade2, exAssessment]

/-- Helper: the one-item bulk submission against the example store succeeds
and appends `exGradeOk`. -/
theorem bulk_ex_eq :
    bulk_submit_grades exDB exBulkReq "fac1" = (exDBOk, .ok exBulkResp) := by
  have hitem : process_bulk_grade_item exDB exBulkItem exAssessment 1 "fac1" =
      (exDBOk, { enrollment_id := 3, success := true
                 message := "Grade submitted successfully" }) := by
    simp only [process_bulk_grade_item,
      show find_enrollment_by_id exDB exBulkItem.enrollment_id = some exEnr3 from rfl,
      show find_grade_by_enrollment_assessment exDB exBulkItem.enrollment_id
        exAssessment.id = none from rfl]
    rw [if_neg (by norm_num [exBulkItem, exAssessment] :
        ¬(exBulkItem.marks_obtained > exAssessment.max_marks))]
    rfl
  simp only [bulk_submit_grades,
    show find_assessment_by_id exDB exBulkReq.assessment_id = some exAssessment from rfl,
    show exBulkReq.items = [exBulkItem] from rfl,
    show exBulkReq.course_id = (1:ℤ) from rfl,
    bulk_loop, hitem]
  rfl

/-- Helper: the 40-mark update against the example store succeeds and
rewrites the first grade in place. -/
theorem upd_ex_eq : update_grade exDB 1 exUpdReq "fac2" = (exDBUpd, .ok exGradeUpd) := by
  simp only [update_grade,
    show find_grade_by_id exDB 1 = some exGrade1 from rfl,
    show exUpdReq.marks_obtained = some 40 from rfl,
    show exUpdReq.remarks = (none : Option String) from rfl,
    show find_assessment_by_id exDB exGrade1.assessment_id = some exAssessment from rfl,
    Option.isNone_some, Bool.false_and, if_neg Bool.false_ne_true]
  rw [decide_eq_false (by norm_num [exAssessment] :
      ¬((40:ℚ) > exAssessment.max_marks))]
  simp only [if_neg Bool.false_ne_true, Option.getD_some]
  rfl

/-- Helper: `find?` over an append whose first part has no hit. -/
theorem find?_append_none {α} (l₁ l₂ : List α) (p : α → Bool)
    (h : l₁.find? p = none) : (l₁ ++ l₂).find? p = l₂.find? p := by
  induction l₁ with
  | nil => rfl
  | cons x rest ih =>
    cases hx : p x with
    | true => rw [List.find?_cons_of_pos _ hx] at h; cases h
    | false =>
      have hx' : ¬(p x = true) := by simp [hx]
      rw [List.find?_cons_of_neg _ hx'] at h
      show List.find? p (x :: (rest ++ l₂)) = List.find? p l₂
      rw [List.find?_cons_of_neg _ hx']
      exact ih h

/-- Helper: `find?` commutes with a map that does not disturb the predicate. -/
theorem find?_map_update {α} (l : List α) (p : α → Bool) (u : α → α)
    (hu : ∀ x, p (u x) = p x) :
    (l.map u).find? p = (l.find? p).map u := by
  induction l with
  | nil => rfl
  | cons x rest ih =>
    cases hx : p x with
    | true =>
      rw [List.map_cons, List.find?_cons_of_pos _ (by rw [hu]; exact hx),
        List.find?_cons_of_pos _ hx]
      rfl
    | false =>
      rw [List.map_cons, List.find?_cons_of_neg _ (by simp [hu, hx]),
        List.find?_cons_of_neg _ (by simp [hx])]
      exact ih

/-- Helper: a map that fixes every element the filter keeps (and creates no
new kept element) leaves the filter unchanged. -/
theorem filter_map_invariant {α} (l : List α) (p : α → Bool) (u : α → α)
    (hu : ∀ x, u x = x ∨ (p (u x) = false ∧ p x = false)) :
    (l.map u).filter p = l.filter p := by
  induction l with
  | nil => rfl
  | cons x rest ih =>
    rw [List.map_cons, List.filter_cons, List.filter_cons]
    rcases hu x with h | ⟨h1, h2⟩
    · rw [h, ih]
    · rw [h1, h2, ih]
      simp

/-- Helper: splitting the sum of a mapped list by a filter and its negation. -/
theorem sum_map_filter_split {α β} [AddCommMonoid β] (l : List α) (p : α → Bool)
    (f : α → β) :
    ((l.filter p).map f).sum + ((l.filter fun a => !p a).map f).sum =
      (l.map f).sum := by
  induction l with
  | nil => simp
  | cons x rest ih =>
    cases hx : p x with
    | true =>
      have e1 : List.filter p (x :: rest) = x :: List.filter p rest := by
        simp [List.filter_cons, hx]
      have e2 : List.filter (fun a => !p a) (x :: rest) =
          List.filter (fun a => !p a) rest := by
        simp [List.filter_cons, hx]
      rw [e1, e2, List.map_cons, List.sum_cons, List.map_cons, List.sum_cons,
        add_assoc, ih]
    | false =>
      have e1 : List.filter p (x :: rest) = List.filter p rest := by
        simp [List.filter_cons, hx]
      have e2 : List.filter (fun a => !p a) (x :: rest) =
          x :: List.filter (fun a => !p a) rest := by
        simp [List.filter_cons, hx]
      rw [e1, e2, List.map_cons, List.sum_cons, List.map_cons, List.sum_cons,
        add_left_comm, ih]

-- ── Shape lemmas for the Result Publisher ──

/-- Helper: the per-student result always carries the student id it was
asked to publish. -/
theorem publish_item_student_id (db : DB) (sid sem : ℤ) (ay : String) :
    (publish_student_result db sid sem ay).2.student_id = sid := by
  by_cases h1 : (get_student_course_grades_for_semester db sid sem).isEmpty = true
  · simp [publish_student_result, h1]
  · cases h2 : find_enrollment_id_for_student_semester db sid sem with
    | none => simp [publish_student_result, h1, h2]
    | some eid => simp [publish_student_result, h1, h2]

/-- Helper: the success flag equals `publish_ok`, a function of the grade-side
tables only. -/
theorem publish_item_success_eq (db : DB) (sid sem : ℤ) (ay : String) :
    (publish_student_result db sid sem ay).2.success = publish_ok db sid sem := by
  unfold publish_ok
  by_cases h1 : (get_student_course_grades_for_semester db sid sem).isEmpty = true
  · simp [publish_student_result, h1]
  · cases h2 : find_enrollment_id_for_student_semester db sid sem with
    | none => simp [publish_student_result, h1, h2]
    | some eid => simp [publish_student_result, h1, h2]

/-- Helper: a failed per-student publish writes nothing at all. -/
theorem publish_fail_frame (db : DB) (sid sem : ℤ) (ay : String)
    (h : (publish_student_result db sid sem ay).2.success = false) :
    (publish_student_result db sid sem ay).1 = db := by
  by_cases h1 : (get_student_course_grades_for_semester db sid sem).isEmpty = true
  · simp [publish_student_result, h1]
  · cases h2 : find_enrollment_id_for_student_semester db sid sem with
    | none => simp [publish_student_result, h1, h2]
    | some eid => simp [publish_student_result, h1, h2] at h

/-- Helper: publishing only writes SemesterResults and Students; every
grade-side table survives unchanged. -/
theorem publish_grade_side (db : DB) (sid sem : ℤ) (ay : String) :
    grade_side_eq (publish_student_result db sid sem ay).1 db := by
  have hup : ∀ db' eid c, grade_side_eq
      (upsert_semester_result db' sid sem eid ay c) db' := by
    intro db' eid c
    unfold upsert_semester_result
    cases find_semester_result db' sid sem <;>
      exact ⟨rfl, rfl, rfl, rfl, rfl⟩
  have hov : ∀ (db' : DB) (q : ℚ), grade_side_eq (overwrite_student_cgpa db' sid q) db' := by
    intro db' q
    unfold overwrite_student_cgpa
    cases find_student_by_id db' sid <;> exact ⟨rfl, rfl, rfl, rfl, rfl⟩
  by_cases h1 : (get_student_course_grades_for_semester db sid sem).isEmpty = true
  · simp [publish_student_result, h1]; exact ⟨rfl, rfl, rfl, rfl, rfl⟩
  · cases h2 : find_enrollment_id_for_student_semester db sid sem with
    | none =>
      simp [publish_student_result, h1, h2]; exact ⟨rfl, rfl, rfl, rfl, rfl⟩
    | some eid =>
      simp only [publish_student_result, h1, h2, Bool.false_eq_true, if_neg,
        ite_false]
      obtain ⟨a1, a2, a3, a4, a5⟩ :=
        hup db eid (publish_computation db sid sem)
      obtain ⟨b1, b2, b3, b4, b5⟩ := hov
        (upsert_semester_result db sid sem eid ay (publish_computation db sid sem))
        (publish_computation db sid sem).cgpa
      exact ⟨b1.trans a1, b2.trans a2, b3.trans a3, b4.trans a4, b5.trans a5⟩

/-- Helper: two stores with equal grade-side tables agree on every grade-side
query the publisher makes. -/
theorem grade_side_queries_eq (db₁ db₂ : DB) (h : grade_side_eq db₁ db₂)
    (sid sem : ℤ) :
    get_student_course_grades_for_semester db₁ sid sem =
      get_student_course_grades_for_semester db₂ sid sem ∧
    find_enrollment_id_for_student_semester db₁ sid sem =
      find_enrollment_id_for_student_semester db₂ sid sem ∧
    publish_ok db₁ sid sem = publish_ok db₂ sid sem := by
  obtain ⟨h1, h2, h3, h4, h5⟩ := h
  have hq : get_student_course_grades_for_semester db₁ sid sem =
      get_student_course_grades_for_semester db₂ sid sem := by
    unfold get_student_course_grades_for_semester semesterJoin
    rw [h1, h2, h3, h4, h5]
  have he : find_enrollment_id_for_student_semester db₁ sid sem =
      find_enrollment_id_for_student_semester db₂ sid sem := by
    unfold find_enrollment_id_for_student_semester
    rw [h1, h3, h4, h5]
  exact ⟨hq, he, by unfold publish_ok; rw [hq, he]⟩

/-- Helper: the publish loop emits exactly one result per student, with the
students' own ids, and its success/failure counters add up to the cohort
size. -/
theorem publish_loop_shape (sem : ℤ) (ay : String) (students : List Student) :
    ∀ db : DB,
      (publish_loop db students sem ay).2.1.length = students.length ∧
      (publish_loop db students sem ay).2.1.map PublishResultItem.student_id =
        students.map Student.id ∧
      (publish_loop db students sem ay).2.2.1 +
        (publish_loop db students sem ay).2.2.2 = students.length := by
  induction students with
  | nil => intro db; exact ⟨rfl, rfl, rfl⟩
  | cons s rest ih =>
    intro db
    obtain ⟨ih1, ih2, ih3⟩ := ih (publish_student_result db s.id sem ay).1
    by_cases h : (publish_student_result db s.id sem ay).2.success = true
    · refine ⟨by simp [publish_loop, ih1], ?_, by simp [publish_loop, h]; omega⟩
      simp [publish_loop, ih2, publish_item_student_id]
    · refine ⟨by simp [publish_loop, ih1], ?_, by simp [publish_loop, h]; omega⟩
      simp [publish_loop, ih2, publish_item_student_id]

/-- Helper: the grade-side tables survive the whole publish loop. -/
theorem publish_loop_grade_side (sem : ℤ) (ay : String) (students : List Student) :
    ∀ db : DB, grade_side_eq (publish_loop db students sem ay).1 db := by
  induction students with
  | nil => intro db; exact ⟨rfl, rfl, rfl, rfl, rfl⟩
  | cons s rest ih =>
    intro db
    obtain ⟨a1, a2, a3, a4, a5⟩ := ih (publish_student_result db s.id sem ay).1
    obtain ⟨b1, b2, b3, b4, b5⟩ := publish_grade_side db s.id sem ay
    exact ⟨a1.trans b1, a2.trans b2, a3.trans b3, a4.trans b4, a5.trans b5⟩

/-- Helper: every result the publish loop emits has a success flag that is
`publish_ok` evaluated against the loop's initial store. -/
theorem publish_loop_results_success (sem : ℤ) (ay : String)
    (students : List Student) :
    ∀ db : DB, ∀ r ∈ (publish_loop db students sem ay).2.1,
      r.success = publish_ok db r.student_id sem := by
  induction students with
  | nil => intro db r hr; cases hr
  | cons s rest ih =>
    intro db r hr
    have hr' : r = (publish_student_result db s.id sem ay).2 ∨
        r ∈ (publish_loop (publish_student_result db s.id sem ay).1 rest sem ay).2.1 := by
      simpa [publish_loop] using hr
    rcases hr' with rfl | hr'
    · rw [publish_item_success_eq, publish_item_student_id]
    · have := ih (publish_student_result db s.id sem ay).1 r hr'
      rw [this]
      exact (grade_side_queries_eq _ db (publish_grade_side db s.id sem ay)
        r.student_id sem).2.2

/-- Helper: a student found by id has that id. -/
theorem find_student_id_eq (db : DB) (j : ℤ) (s : Student)
    (h : find_student_by_id db j = some s) : s.id = j := by
  have h' : (db.students.find? fun t => t.id == j) = some s := h
  have hp := List.find?_some (p := fun t => t.id == j) (a := s) h'
  exact beq_iff_eq.mp hp

/-- C10: with a nonempty explicit `student_ids` list, ids that match no
student are silently dropped — the cohort is the list of resolved students,
the response's total and result count equal the number of resolved ids (not
the length of `student_ids`), and a dropped id gets no result entry at all;
if no id resolves, the call fails NotFound. -/
theorem publish_results_drops_unknown_ids
    (db : DB) (semester : ℤ) (ay : String) (ids : List ℤ) (hne : ids ≠ []) :
    (ids.filterMap (fun sid => find_student_by_id db sid) = [] →
      publish_results db semester ay (some ids) =
        (db, .error (.notFound "No students found for the given semester"))) ∧
    (ids.filterMap (fun sid => find_student_by_id db sid) ≠ [] →
      ∃ resp, (publish_results db semester ay (some ids)).2 = .ok resp ∧
        resp.total = (ids.filterMap (fun sid => find_student_by_id db sid)).length ∧
        resp.results.length =
          (ids.filterMap (fun sid => find_student_by_id db sid)).length ∧
        ∀ i ∈ ids, find_student_by_id db i = none →
          ∀ r ∈ resp.results, r.student_id ≠ i) := by
  have hcohort : resolve_cohort db semester (some ids) =
      ids.filterMap (fun sid => find_student_by_id db sid) := by
    simp only [resolve_cohort]
    rw [if_neg (by simpa using hne)]
  constructor
  · intro hempty
    unfold publish_results
    rw [hcohort, hempty]
    rfl
  · intro hres
    unfold publish_results
    rw [hcohort]
    rw [if_neg (by simpa using hres)]
    set students := ids.filterMap (fun sid => find_student_by_id db sid) with hstu
    obtain ⟨hlen, hids, -⟩ := publish_loop_shape semester ay students db
    refine ⟨_, rfl, rfl, hlen, ?_⟩
    intro i hi hnone r hr hri
    have hmem : r.student_id ∈
        (publish_loop db students semester ay).2.1.map
          PublishResultItem.student_id :=
      List.mem_map_of_mem _ hr
    rw [hids] at hmem
    obtain ⟨s, hs, hsid⟩ := List.mem_map.mp hmem
    obtain ⟨j, hj, hfound⟩ := List.mem_filterMap.mp (hstu ▸ hs)
    have : s.id = j := find_student_id_eq db j s hfound
    rw [hri] at hsid
    rw [this] at hsid
    rw [hsid] at hfound
    rw [hnone] at hfound
    cases hfound

/-- C10 witness: with `student_ids = [1, 99]` against the example store, id
99 resolves to nothing and is dropped — the response covers exactly one
student and no entry carries id 99 — while `student_ids = [99]` alone fails
NotFound. -/
theorem publish_results_drops_unknown_ids_witness :
    (∃ resp, (publish_results exDB 1 "2024-2025" (some [1, 99])).2 = .ok resp ∧
      resp.total = 1 ∧ resp.results.length = 1 ∧
      ∀ i ∈ [(1:ℤ), 99], find_student_by_id exDB i = none →
        ∀ r ∈ resp.results, r.student_id ≠ i) ∧
    publish_results exDB 1 "2024-2025" (some [99]) =
      (exDB, .error (.notFound "No students found for the given semester")) := by
  constructor
  · obtain ⟨resp, h1, h2, h3, h4⟩ :=
      (publish_results_drops_unknown_ids exDB 1 "2024-2025" [1, 99]
        (by simp)).2 (by decide)
    exact ⟨resp, h1, by rw [h2]; rfl, by rw [h3]; rfl, h4⟩
  · exact (publish_results_drops_unknown_ids exDB 1 "2024-2025" [99]
      (by simp)).1 (by decide)

/-- Helper: after the upsert, a (student, semester) row exists and carries
exactly the freshly computed gpa, cgpa, credit totals and status. -/
theorem upsert_find (db : DB) (sid sem eid : ℤ) (ay : String)
    (c : PublishComputation) :
    ∃ row, find_semester_result (upsert_semester_result db sid sem eid ay c)
        sid sem = some row ∧
      row.student_id = sid ∧ row.semester = sem ∧
      row.gpa = c.gpa ∧ row.cgpa = c.cgpa ∧
      row.total_credits_attempted = some c.total_credits ∧
      row.total_credits_earned = some c.credits_earned ∧
      row.status = c.status := by
  cases h : find_semester_result db sid sem with
  | none =>
    have h0 : (db.semester_results.find? fun r =>
        r.student_id == sid && r.semester == sem) = none := h
    refine ⟨fresh_semester_result sid sem eid ay c,
      ?_, rfl, rfl, rfl, rfl, rfl, rfl, rfl⟩
    simp only [upsert_semester_result, find_semester_result, h0]
    rw [find?_append_none _ _ _ h0]
    rw [List.find?_cons_of_pos _ (by simp [fresh_semester_result])]
  | some r₀ =>
    have h' : (db.semester_results.find? fun r =>
        r.student_id == sid && r.semester == sem) = some r₀ := h
    have hp : (r₀.student_id == sid && r₀.semester == sem) = true :=
      List.find?_some (p := fun r => r.student_id == sid && r.semester == sem)
        (a := r₀) h'
    obtain ⟨hsid, hsem⟩ : r₀.student_id = sid ∧ r₀.semester = sem := by
      simpa [Bool.and_eq_true, beq_iff_eq] using hp
    refine ⟨apply_result_fields r₀ c,
      ?_, hsid, hsem, rfl, rfl, rfl, rfl, rfl⟩
    simp only [upsert_semester_result, find_semester_result, h']
    rw [find?_map_update _ _ _ ?hu]
    case hu =>
      intro x
      by_cases hx : (x.student_id == sid && x.semester == sem) = true
      · rw [if_pos hx]; rfl
      · rw [if_neg hx]
    rw [h']
    simp only [Option.map_some']
    rw [if_pos hp]

/-- Helper: overwriting the denormalized Student.cgpa never moves a
SemesterResult row. -/
theorem overwrite_semres (d : DB) (t : ℤ) (q : ℚ) :
    (overwrite_student_cgpa d t q).semester_results = d.semester_results := by
  unfold overwrite_student_cgpa
  cases find_student_by_id d t <;> rfl

/-- C5: for every successfully published student, the stored result status is
PASS exactly when the credits of the non-F courses add up to all credits
found, FAIL otherwise; PROMOTED and DETAINED are never assigned. -/
theorem publish_status_pass_fail (db : DB) (sid sem : ℤ) (ay : String)
    (hok : (publish_student_result db sid sem ay).2.success = true) :
    ∃ row, find_semester_result (publish_student_result db sid sem ay).1 sid sem
        = some row ∧
      (row.status = ResultStatus.PASS ∨ row.status = ResultStatus.FAIL) ∧
      (row.status = ResultStatus.PASS ↔
        (((get_student_course_grades_for_semester db sid sem).filter fun r =>
            (percentage_to_grade r.weighted_percentage).2 ≠ "F").map
          CourseGradeRow.credits).sum =
        ((get_student_course_grades_for_semester db sid sem).map
          CourseGradeRow.credits).sum) := by
  rw [publish_item_success_eq] at hok
  unfold publish_ok at hok
  rw [Bool.and_eq_true] at hok
  obtain ⟨hne, hsome⟩ := hok
  rw [Bool.not_eq_true'] at hne
  obtain ⟨eid, heid⟩ := Option.isSome_iff_exists.mp hsome
  have hpub : (publish_student_result db sid sem ay).1 =
      overwrite_student_cgpa
        (upsert_semester_result db sid sem eid ay (publish_computation db sid sem))
        sid (publish_computation db sid sem).cgpa := by
    simp [publish_student_result, hne, heid]
  rw [hpub]
  have hovr : find_semester_result
      (overwrite_student_cgpa
        (upsert_semester_result db sid sem eid ay (publish_computation db sid sem))
        sid (publish_computation db sid sem).cgpa) sid sem =
      find_semester_result
        (upsert_semester_result db sid sem eid ay (publish_computation db sid sem))
        sid sem := by
    unfold find_semester_result
    rw [overwrite_semres]
  rw [hovr]
  obtain ⟨row, hfind, -, -, -, -, -, -, hstatus⟩ :=
    upsert_find db sid sem eid ay (publish_computation db sid sem)
  have hstat : (publish_computation db sid sem).status =
      (if (course_totals (get_student_course_grades_for_semester db sid sem)).2.2 =
          (course_totals (get_student_course_grades_for_semester db sid sem)).1
        then ResultStatus.PASS else ResultStatus.FAIL) := rfl
  rw [hstat] at hstatus
  refine ⟨row, hfind, ?_, ?_⟩
  · rw [hstatus]
    by_cases hc : (course_totals (get_student_course_grades_for_semester db sid sem)).2.2 =
        (course_totals (get_student_course_grades_for_semester db sid sem)).1
    · rw [if_pos hc]; exact Or.inl rfl
    · rw [if_neg hc]; exact Or.inr rfl
  · rw [hstatus]
    by_cases hc : (course_totals (get_student_course_grades_for_semester db sid sem)).2.2 =
        (course_totals (get_student_course_grades_for_semester db sid sem)).1
    · rw [if_pos hc]
      exact iff_of_true rfl hc
    · rw [if_neg hc]
      exact iff_of_false (fun hcon => ResultStatus.noConfusion hcon) hc

/-- C5 witness: publishing student 1 of the example store stores a row whose
status is PASS or FAIL, PASS exactly when all credits were earned. -/
theorem publish_status_pass_fail_witness :
    ∃ row, find_semester_result
        (publish_student_result exDB 1 1 "2024-2025").1 1 1 = some row ∧
      (row.status = ResultStatus.PASS ∨ row.status = ResultStatus.FAIL) ∧
      (row.status = ResultStatus.PASS ↔
        (((get_student_course_grades_for_semester exDB 1 1).filter fun r =>
            (percentage_to_grade r.weighted_percentage).2 ≠ "F").map
          CourseGradeRow.credits).sum =
        ((get_student_course_grades_for_semester exDB 1 1).map
          CourseGradeRow.credits).sum) :=
  publish_status_pass_fail exDB 1 1 "2024-2025" (by rfl)

/-- Helper: a successful publish touches no SemesterResult row of any other
student. -/
theorem publish_other_students_frame (db : DB) (sid sem : ℤ) (ay : String)
    (t : ℤ) (ht : t ≠ sid) :
    ((publish_student_result db sid sem ay).1.semester_results.filter
      fun x => x.student_id == t) =
    db.semester_results.filter fun x => x.student_id == t := by
  by_cases h1 : (get_student_course_grades_for_semester db sid sem).isEmpty = true
  · rw [publish_fail_frame db sid sem ay (by simp [publish_student_result, h1])]
  · cases h2 : find_enrollment_id_for_student_semester db sid sem with
    | none =>
      rw [publish_fail_frame db sid sem ay (by simp [publish_student_result, h1, h2])]
    | some eid =>
      have hpub : (publish_student_result db sid sem ay).1 =
          overwrite_student_cgpa
            (upsert_semester_result db sid sem eid ay
              (publish_computation db sid sem))
            sid (publish_computation db sid sem).cgpa := by
        simp [publish_student_result, h1, h2]
      rw [hpub, overwrite_semres]
      unfold upsert_semester_result
      cases h3 : find_semester_result db sid sem with
      | some r₀ =>
        apply filter_map_invariant
        intro x
        by_cases hx : (x.student_id == sid && x.semester == sem) = true
        · rw [if_pos hx]
          right
          have hxsid : x.student_id = sid := by
            have hx' := hx
            rw [Bool.and_eq_true] at hx'
            exact beq_iff_eq.mp hx'.1
          constructor
          · show (x.student_id == t) = false
            simp [hxsid, beq_iff_eq, ht.symm]
          · simp [hxsid, beq_iff_eq, ht.symm]
        · rw [if_neg hx]
          exact Or.inl rfl
      | none =>
        show (_ ++ [fresh_semester_result sid sem eid ay _]).filter _ = _
        rw [List.filter_append]
        have : ([fresh_semester_result sid sem eid ay
            (publish_computation db sid sem)].filter
            fun x => x.student_id == t) = [] := by
          simp [fresh_semester_result, beq_iff_eq, ht.symm]
        rw [this, List.append_nil]

/-- Helper: across a whole publish loop, a student for whom publishing fails
(on the loop's grade side, which never changes) keeps every SemesterResult
row untouched. -/
theorem publish_loop_failed_student_frame (sem : ℤ) (ay : String)
    (students : List Student) :
    ∀ (db : DB) (t : ℤ), publish_ok db t sem = false →
      ((publish_loop db students sem ay).1.semester_results.filter
        fun x => x.student_id == t) =
      db.semester_results.filter fun x => x.student_id == t := by
  induction students with
  | nil => intro db t _; rfl
  | cons s rest ih =>
    intro db t hfail
    show ((publish_loop (publish_student_result db s.id sem ay).1 rest sem ay).1.semester_results.filter
        fun x => x.student_id == t) = _
    have hside := publish_grade_side db s.id sem ay
    have hok' : publish_ok (publish_student_result db s.id sem ay).1 t sem = false := by
      rw [(grade_side_queries_eq _ db hside t sem).2.2]
      exact hfail
    rw [ih _ t hok']
    by_cases hsucc : (publish_student_result db s.id sem ay).2.success = true
    · have hts : t ≠ s.id := by
        intro h
        rw [publish_item_success_eq] at hsucc
        rw [h] at hfail
        rw [hsucc] at hfail
        cases hfail
      exact publish_other_students_frame db s.id sem ay t hts
    · have hf : (publish_student_result db s.id sem ay).2.success = false := by
        revert hsucc
        cases (publish_student_result db s.id sem ay).2.success <;> simp
      rw [publish_fail_frame db s.id sem ay hf]

/-- Helper: one bulk step never removes a persisted grade. -/
theorem process_item_grades_mono (db : DB) (item : BulkGradeItem)
    (assessment : Assessment) (cid : ℤ) (gb : String) :
    ∀ g ∈ db.grades, g ∈ (process_bulk_grade_item db item assessment cid gb).1.grades := by
  intro g hg
  rcases process_item_spec db item assessment cid gb with ⟨-, h⟩ | ⟨-, h, -⟩ <;>
    rw [h]
  · exact hg
  · exact List.mem_append_left _ hg

/-- Helper: the bulk loop never removes a persisted grade. -/
theorem bulk_loop_grades_mono (assessment : Assessment) (cid : ℤ) (gb : String)
    (items : List BulkGradeItem) :
    ∀ db : DB, ∀ g ∈ db.grades,
      g ∈ (bulk_loop db items assessment cid gb).1.grades := by
  induction items with
  | nil => intro db g hg; exact hg
  | cons item rest ih =>
    intro db g hg
    exact ih _ g (process_item_grades_mono db item assessment cid gb g hg)

/-- Helper: the bulk loop emits one result per item (carrying the item's
enrollment id, in order) and its counters add up to the item count. -/
theorem bulk_loop_shape (assessment : Assessment) (cid : ℤ) (gb : String)
    (items : List BulkGradeItem) :
    ∀ db : DB,
      (bulk_loop db items assessment cid gb).2.1.length = items.length ∧
      (bulk_loop db items assessment cid gb).2.1.map
        BulkGradeResultItem.enrollment_id =
        items.map BulkGradeItem.enrollment_id ∧
      (bulk_loop db items assessment cid gb).2.2.1 +
        (bulk_loop db items assessment cid gb).2.2.2 = items.length := by
  induction items with
  | nil => intro db; exact ⟨rfl, rfl, rfl⟩
  | cons item rest ih =>
    intro db
    obtain ⟨ih1, ih2, ih3⟩ := ih (process_bulk_grade_item db item assessment cid gb).1
    by_cases h : (process_bulk_grade_item db item assessment cid gb).2.success = true
    · refine ⟨by simp [bulk_loop, ih1], ?_, by simp [bulk_loop, h]; omega⟩
      simp [bulk_loop, ih2, process_item_enrollment_id]
    · refine ⟨by simp [bulk_loop, ih1], ?_, by simp [bulk_loop, h]; omega⟩
      simp [bulk_loop, ih2, process_item_enrollment_id]

/-- Helper: every successful entry the bulk loop reports has a matching
persisted Grade row in the final store. -/
theorem bulk_loop_success_persisted (assessment : Assessment) (cid : ℤ)
    (gb : String) (items : List BulkGradeItem) :
    ∀ db : DB, ∀ r ∈ (bulk_loop db items assessment cid gb).2.1,
      r.success = true →
      ∃ g ∈ (bulk_loop db items assessment cid gb).1.grades,
        g.enrollment_id = r.enrollment_id ∧ g.assessment_id = assessment.id := by
  induction items with
  | nil => intro db r hr; cases hr
  | cons item rest ih =>
    intro db r hr hsucc
    have hr' : r = (process_bulk_grade_item db item assessment cid gb).2 ∨
        r ∈ (bulk_loop (process_bulk_grade_item db item assessment cid gb).1
          rest assessment cid gb).2.1 := by
      simpa [bulk_loop] using hr
    rcases hr' with rfl | hr'
    · rcases process_item_spec db item assessment cid gb with ⟨hfail, -⟩ | ⟨-, hdb, -⟩
      · rw [hsucc] at hfail; cases hfail
      · refine ⟨{ id := next_grade_id db, enrollment_id := item.enrollment_id,
                  course_id := cid, assessment_id := assessment.id,
                  marks_obtained := item.marks_obtained, remarks := item.remarks,
                  graded_by := gb }, ?_, ?_, rfl⟩
        · show _ ∈ (bulk_loop (process_bulk_grade_item db item assessment cid gb).1
              rest assessment cid gb).1.grades
          apply bulk_loop_grades_mono
          rw [hdb]
          exact List.mem_append_right _ (by simp)
        · rw [process_item_enrollment_id]
    · exact ih _ r hr' hsucc

/-- C7: batch operations isolate per-item failures — with the batch-level
assessment (resp. a nonempty cohort) present, the call returns a result list
instead of an exception, one entry per item (per student), the counters add
up to the number processed, every successful bulk item has its Grade row
persisted in the final store regardless of other items, and a student whose
publish failed keeps every SemesterResult row untouched. -/
theorem batch_error_isolation :
    (∀ (db : DB) (data : BulkGradeRequest) (graded_by : String)
        (assessment : Assessment),
      find_assessment_by_id db data.assessment_id = some assessment →
      ∃ resp, (bulk_submit_grades db data graded_by).2 = .ok resp ∧
        resp.total = data.items.length ∧
        resp.successful + resp.failed = resp.total ∧
        resp.results.length = data.items.length ∧
        (∀ r ∈ resp.results, r.success = true →
          ∃ g ∈ (bulk_submit_grades db data graded_by).1.grades,
            g.enrollment_id = r.enrollment_id ∧
            g.assessment_id = data.assessment_id)) ∧
    (∀ (db : DB) (semester : ℤ) (ay : String) (student_ids : Option (List ℤ)),
      resolve_cohort db semester student_ids ≠ [] →
      ∃ resp, (publish_results db semester ay student_ids).2 = .ok resp ∧
        resp.total = (resolve_cohort db semester student_ids).length ∧
        resp.published + resp.failed = resp.total ∧
        resp.results.length = resp.total ∧
        (∀ r ∈ resp.results, r.success = false →
          ((publish_results db semester ay student_ids).1.semester_results.filter
            fun x => x.student_id == r.student_id) =
          db.semester_results.filter fun x => x.student_id == r.student_id)) := by
  constructor
  · intro db data graded_by assessment hass
    obtain ⟨hlen, -, hcount⟩ :=
      bulk_loop_shape assessment data.course_id graded_by data.items db
    have hid : assessment.id = data.assessment_id := by
      have h' : (db.assessments.find? fun a => a.id == data.assessment_id) =
          some assessment := hass
      exact beq_iff_eq.mp
        (List.find?_some (p := fun a => a.id == data.assessment_id)
          (a := assessment) h')
    have hout : bulk_submit_grades db data graded_by =
        ((bulk_loop db data.items assessment data.course_id graded_by).1, .ok
          { total := data.items.length
            successful :=
              (bulk_loop db data.items assessment data.course_id graded_by).2.2.1
            failed :=
              (bulk_loop db data.items assessment data.course_id graded_by).2.2.2
            results :=
              (bulk_loop db data.items assessment data.course_id graded_by).2.1 }) := by
      simp only [bulk_submit_grades, hass]
    rw [hout]
    refine ⟨_, rfl, rfl, hcount, hlen, ?_⟩
    intro r hr hs
    obtain ⟨g, hg, he, ha⟩ := bulk_loop_success_persisted assessment
      data.course_id graded_by data.items db r hr hs
    exact ⟨g, hg, he, by rw [ha, hid]⟩
  · intro db semester ay sids hne
    obtain ⟨hlen, -, hcount⟩ :=
      publish_loop_shape semester ay (resolve_cohort db semester sids) db
    have hout : publish_results db semester ay sids =
        ((publish_loop db (resolve_cohort db semester sids) semester ay).1, .ok
          { total := (resolve_cohort db semester sids).length
            published :=
              (publish_loop db (resolve_cohort db semester sids) semester ay).2.2.1
            failed :=
              (publish_loop db (resolve_cohort db semester sids) semester ay).2.2.2
            results :=
              (publish_loop db (resolve_cohort db semester sids) semester ay).2.1 }) := by
      simp only [publish_results]
      rw [if_neg (by simpa using hne)]
    rw [hout]
    refine ⟨_, rfl, rfl, hcount, hlen, ?_⟩
    intro r hr hfailflag
    have hsuc := publish_loop_results_success semester ay
      (resolve_cohort db semester sids) db r hr
    rw [hfailflag] at hsuc
    exact publish_loop_failed_student_frame semester ay
      (resolve_cohort db semester sids) db r.student_id hsuc.symm

/-- C7 witness: the one-item bulk submission and the three-student cohort
publish against the example store both return per-item result lists with
consistent counters, persisted successes, and untouched rows for the failed
student. -/
theorem batch_error_isolation_witness :
    (∃ resp, (bulk_submit_grades exDB exBulkReq "fac1").2 = .ok resp ∧
      resp.total = exBulkReq.items.length ∧
      resp.successful + resp.failed = resp.total ∧
      resp.results.length = exBulkReq.items.length ∧
      (∀ r ∈ resp.results, r.success = true →
        ∃ g ∈ (bulk_submit_grades exDB exBulkReq "fac1").1.grades,
          g.enrollment_id = r.enrollment_id ∧
          g.assessment_id = exBulkReq.assessment_id)) ∧
    (∃ resp, (publish_results exDB 1 "2024-2025" none).2 = .ok resp ∧
      resp.total = (resolve_cohort exDB 1 none).length ∧
      resp.published + resp.failed = resp.total ∧
      resp.results.length = resp.total ∧
      (∀ r ∈ resp.results, r.success = false →
        ((publish_results exDB 1 "2024-2025" none).1.semester_results.filter
          fun x => x.student_id == r.student_id) =
        exDB.semester_results.filter fun x => x.student_id == r.student_id)) :=
  ⟨batch_error_isolation.1 exDB exBulkReq "fac1" exAssessment rfl,
    batch_error_isolation.2 exDB 1 "2024-2025" none (by decide)⟩

/-- Helper: every joined row's course component comes from the courses
table. -/
theorem semesterJoin_course_mem (db : DB) (sid sem : ℤ) :
    ∀ t ∈ semesterJoin db sid sem, t.2.2 ∈ db.courses := by
  intro t ht
  simp only [semesterJoin, List.mem_flatMap, List.mem_filter,
    List.mem_filterMap] at ht
  obtain ⟨g, hg, a, ⟨ha, -⟩, c, ⟨hc, -⟩, e, ⟨he, -⟩, o, ⟨ho, -⟩, hcond⟩ := ht
  by_cases hb : (e.student_id == sid && o.semester == sem) = true
  · rw [if_pos hb] at hcond
    obtain rfl := Option.some.inj hcond
    exact hc
  · rw [if_neg hb] at hcond
    cases hcond

/-- Helper: with course ids unique, each grouped row's weighted percentage
is the sum of marks_obtained / max_marks * weightage over exactly the joined
rows of that course. -/
theorem grouped_weighted_percentage (db : DB) (sid sem : ℤ)
    (hcourses : (db.courses.map Course.id).Nodup) :
    ∀ row ∈ get_student_course_grades_for_semester db sid sem,
      row.weighted_percentage =
        (((semesterJoin db sid sem).filter fun t =>
          t.2.2.id = row.course_id).map fun t =>
            t.1.marks_obtained / t.2.1.max_marks * t.2.1.weightage).sum := by
  intro row hrow
  simp only [get_student_course_grades_for_semester, List.mem_map] at hrow
  obtain ⟨c, hc, rfl⟩ := hrow
  have hcmem : c ∈ db.courses := by
    have hmem := List.mem_dedup.mp hc
    obtain ⟨t, ht, rfl⟩ := List.mem_map.mp hmem
    exact semesterJoin_course_mem db sid sem t ht
  have hfeq : ((semesterJoin db sid sem).filter fun t => t.2.2 == c) =
      ((semesterJoin db sid sem).filter fun t => t.2.2.id = c.id) := by
    apply List.filter_congr
    intro t ht
    have htc : t.2.2 ∈ db.courses := semesterJoin_course_mem db sid sem t ht
    by_cases hid : t.2.2.id = c.id
    · have hteq : t.2.2 = c := List.inj_on_of_nodup_map hcourses htc hcmem hid
      simp [hteq, hid]
    · have hneq : t.2.2 ≠ c := fun h => hid (by rw [h])
      simp [hneq, hid]
  show (((semesterJoin db sid sem).filter fun t => t.2.2 == c).map fun t =>
      t.1.marks_obtained / t.2.1.max_marks * t.2.1.weightage).sum = _
  rw [hfeq]

/-- Helper: rounding zero gives zero. -/
theorem pyRound2_zero : pyRound2 0 = 0 := by
  norm_num [pyRound2, Rat.floor]

/-- Helper: the division-guard in the services agrees with the unguarded
rounded quotient, because a zero credit total makes the quotient zero. -/
theorem guarded_round_div (ws : ℚ) (total : ℕ) :
    (if 0 < total then pyRound2 (ws / (total : ℚ)) else 0) =
      pyRound2 (ws / (total : ℚ)) := by
  by_cases h : 0 < total
  · rw [if_pos h]
  · rw [if_neg h]
    have h0 : total = 0 := by omega
    rw [h0]
    rw [show ((0 : ℕ) : ℚ) = 0 from rfl, div_zero, pyRound2_zero]

/-- C2: for every student with at least one graded course in the semester,
compute_sgpa returns SGPA = Σ(credits·grade_point)/Σ(credits) over all
courses found, rounded to 2 decimals, with each course's grade point derived
from its weighted percentage Σ(marks_obtained/max_marks·weightage) over that
course's graded assessments; with no graded courses it fails NotFound. -/
theorem calculate_sgpa_correct (db : DB) (sid sem : ℤ)
    (hstud : (find_student_by_id db sid).isSome = true)
    (hcourses : (db.courses.map Course.id).Nodup) :
    (get_student_course_grades_for_semester db sid sem = [] →
      calculate_sgpa db sid sem =
        .error (.notFound "No grades found for this student in the given semester")) ∧
    (get_student_course_grades_for_semester db sid sem ≠ [] →
      ∃ resp, calculate_sgpa db sid sem = .ok resp ∧
        resp.sgpa = pyRound2
          (((get_student_course_grades_for_semester db sid sem).map fun row =>
              (row.credits : ℚ) * (percentage_to_grade row.weighted_percentage).1).sum /
            ((((get_student_course_grades_for_semester db sid sem).map
              CourseGradeRow.credits).sum : ℕ) : ℚ)) ∧
        resp.total_credits =
          ((get_student_course_grades_for_semester db sid sem).map
            CourseGradeRow.credits).sum ∧
        resp.courses.map CourseGradeItem.grade_point =
          (get_student_course_grades_for_semester db sid sem).map
            (fun row => (percentage_to_grade row.weighted_percentage).1) ∧
        (∀ row ∈ get_student_course_grades_for_semester db sid sem,
          row.weighted_percentage =
            (((semesterJoin db sid sem).filter fun t =>
              t.2.2.id = row.course_id).map fun t =>
                t.1.marks_obtained / t.2.1.max_marks * t.2.1.weightage).sum)) := by
  obtain ⟨st, hst⟩ := Option.isSome_iff_exists.mp hstud
  constructor
  · intro hempty
    simp [calculate_sgpa, hst, hempty]
  · intro hne
    have hne' : (get_student_course_grades_for_semester db sid sem).isEmpty
        = false := List.isEmpty_eq_false.mpr hne
    refine ⟨{ student_id := sid, semester := sem,
              courses := (get_student_course_grades_for_semester db sid sem).map
                fun row =>
                  { course_id := row.course_id, course_name := row.course_name,
                    course_code := row.course_code, credits := row.credits,
                    weighted_percentage := pyRound2 row.weighted_percentage,
                    grade_point := (percentage_to_grade row.weighted_percentage).1,
                    grade_letter := (percentage_to_grade row.weighted_percentage).2 },
              total_credits := ((get_student_course_grades_for_semester db sid sem).map
                CourseGradeRow.credits).sum,
              sgpa := if 0 < ((get_student_course_grades_for_semester db sid sem).map
                    CourseGradeRow.credits).sum then
                  pyRound2 ((((get_student_course_grades_for_semester db sid sem).map
                    fun row => (row.credits : ℚ) *
                      (percentage_to_grade row.weighted_percentage).1).sum) /
                    ((((get_student_course_grades_for_semester db sid sem).map
                      CourseGradeRow.credits).sum : ℕ) : ℚ))
                else 0 },
      by simp only [calculate_sgpa, hst, hne', Bool.false_eq_true, if_false],
      guarded_round_div _ _, rfl, ?_, grouped_weighted_percentage db sid sem hcourses⟩
    rw [List.map_map]
    rfl

/-- C2 witness: for student 1 of the example store (one 4-credit course,
weighted percentage 85) the SGPA comes out as the rounded credit-weighted
quotient and the response exposes the per-course grade points. -/
theorem calculate_sgpa_correct_witness :
    ∃ resp, calculate_sgpa exDB 1 1 = .ok resp ∧
      resp.sgpa = pyRound2
        (((get_student_course_grades_for_semester exDB 1 1).map fun row =>
            (row.credits : ℚ) * (percentage_to_grade row.weighted_percentage).1).sum /
          ((((get_student_course_grades_for_semester exDB 1 1).map
            CourseGradeRow.credits).sum : ℕ) : ℚ)) ∧
      resp.total_credits =
        ((get_student_course_grades_for_semester exDB 1 1).map
          CourseGradeRow.credits).sum ∧
      resp.courses.map CourseGradeItem.grade_point =
        (get_student_course_grades_for_semester exDB 1 1).map
          (fun row => (percentage_to_grade row.weighted_percentage).1) ∧
      (∀ row ∈ get_student_course_grades_for_semester exDB 1 1,
        row.weighted_percentage =
          (((semesterJoin exDB 1 1).filter fun t =>
            t.2.2.id = row.course_id).map fun t =>
              t.1.marks_obtained / t.2.1.max_marks * t.2.1.weightage).sum) :=
  (calculate_sgpa_correct exDB 1 1 (by rfl) (by decide)).2
    (by exact List.cons_ne_nil _ _)

/-- Helper: the upsert never touches the students table. -/
theorem upsert_students (db : DB) (sid sem eid : ℤ) (ay : String)
    (c : PublishComputation) :
    (upsert_semester_result db sid sem eid ay c).students = db.students := by
  unfold upsert_semester_result
  cases find_semester_result db sid sem <;> rfl

/-- Helper: overwriting a student's cgpa never changes which ids resolve. -/
theorem overwrite_find_student_isSome (d : DB) (t : ℤ) (q : ℚ) (s : ℤ) :
    (find_student_by_id (overwrite_student_cgpa d t q) s).isSome =
      (find_student_by_id d s).isSome := by
  unfold overwrite_student_cgpa
  cases h : find_student_by_id d t with
  | none => rfl
  | some st =>
    show (find_student_by_id _ s).isSome = _
    unfold find_student_by_id
    rw [find?_map_update _ _ _ ?hu]
    · cases d.students.find? fun x => x.id == s <;> rfl
    case hu =>
      intro x
      by_cases hx : (x.id == t) = true
      · rw [if_pos hx]
      · rw [if_neg hx]

/-- Helper: a list of length at most one containing an element is that
singleton. -/
theorem length_le_one_eq {α} (l : List α) (a : α) (h : l.length ≤ 1)
    (ha : a ∈ l) : l = [a] := by
  cases l with
  | nil => cases ha
  | cons x xs =>
    cases xs with
    | nil =>
      rcases List.mem_singleton.mp ha with rfl
      rfl
    | cons y ys => simp at h

/-- Helper: a filter slides past a map that respects the predicate. -/
theorem filter_map_comm {α} (l : List α) (p : α → Bool) (u : α → α)
    (hu : ∀ x, p (u x) = p x) :
    (l.map u).filter p = (l.filter p).map u := by
  induction l with
  | nil => rfl
  | cons x rest ih =>
    rw [List.map_cons, List.filter_cons, List.filter_cons]
    cases hx : p x with
    | true => simp only [hu, hx, if_true, List.map_cons, ih]
    | false => simp only [hu, hx, Bool.false_eq_true, if_false, ih]

/-- Helper: the upsert leaves the sub-list of the student's rows for every
*other* semester untouched. -/
theorem upsert_other_semester_filter (db : DB) (sid sem eid : ℤ) (ay : String)
    (c : PublishComputation) :
    (((upsert_semester_result db sid sem eid ay c).semester_results.filter
        fun r => r.student_id == sid).filter fun r => decide (r.semester ≠ sem)) =
      ((db.semester_results.filter fun r => r.student_id == sid).filter
        fun r => decide (r.semester ≠ sem)) := by
  unfold upsert_semester_result
  cases h : find_semester_result db sid sem with
  | none =>
    show ((((db.semester_results ++ [fresh_semester_result sid sem eid ay c]).filter
        fun r => r.student_id == sid).filter fun r => decide (r.semester ≠ sem))) = _
    rw [List.filter_append, List.filter_append]
    have hdrop : (([fresh_semester_result sid sem eid ay c].filter
        fun r => r.student_id == sid).filter fun r => decide (r.semester ≠ sem)) = [] := by
      simp [fresh_semester_result]
    rw [hdrop, List.append_nil]
  | some r₀ =>
    show ((((db.semester_results.map fun r =>
        if (r.student_id == sid && r.semester == sem) = true then
          apply_result_fields r c else r).filter
        fun r => r.student_id == sid).filter fun r => decide (r.semester ≠ sem))) = _
    rw [List.filter_filter, List.filter_filter]
    apply filter_map_invariant
    intro x
    by_cases hx : (x.student_id == sid && x.semester == sem) = true
    · rw [if_pos hx]
      right
      have hx' := hx
      rw [Bool.and_eq_true] at hx'
      have hsem : x.semester = sem := beq_iff_eq.mp hx'.2
      constructor
      · show (decide (¬(apply_result_fields x c).semester = sem) &&
          (apply_result_fields x c).student_id == sid) = false
        have : (apply_result_fields x c).semester = x.semester := rfl
        simp [this, hsem]
      · simp [hsem]
    · rw [if_neg hx]
      exact Or.inl rfl

/-- Helper: after the upsert the student still has at least one row. -/
theorem upsert_student_filter_ne_nil (db : DB) (sid sem eid : ℤ) (ay : String)
    (c : PublishComputation) :
    ((upsert_semester_result db sid sem eid ay c).semester_results.filter
      fun r => r.student_id == sid) ≠ [] := by
  unfold upsert_semester_result
  cases h : find_semester_result db sid sem with
  | none =>
    show ((db.semester_results ++ [fresh_semester_result sid sem eid ay c]).filter
        fun r => r.student_id == sid) ≠ []
    rw [List.filter_append]
    have hkeep : ([fresh_semester_result sid sem eid ay c].filter
        fun r => r.student_id == sid) = [fresh_semester_result sid sem eid ay c] := by
      simp [fresh_semester_result]
    rw [hkeep]
    simp
  | some r₀ =>
    have h' : (db.semester_results.find? fun r =>
        r.student_id == sid && r.semester == sem) = some r₀ := h
    have hr₀mem : r₀ ∈ db.semester_results := List.mem_of_find?_eq_some h'
    have hP : (r₀.student_id == sid && r₀.semester == sem) = true :=
      List.find?_some
        (p := fun r => r.student_id == sid && r.semester == sem) (a := r₀) h'
    have hsid : r₀.student_id = sid := by
      rw [Bool.and_eq_true] at hP
      exact beq_iff_eq.mp hP.1
    show ((db.semester_results.map fun r =>
        if (r.student_id == sid && r.semester == sem) = true then
          apply_result_fields r c else r).filter
        fun r => r.student_id == sid) ≠ []
    rw [filter_map_comm _ _ _ ?hu]
    case hu =>
      intro x
      by_cases hx : (x.student_id == sid && x.semester == sem) = true
      · rw [if_pos hx]; rfl
      · rw [if_neg hx]
    intro hcon
    rw [List.map_eq_nil_iff] at hcon
    have : r₀ ∈ db.semester_results.filter fun r => r.student_id == sid :=
      List.mem_filter.mpr ⟨hr₀mem, by simp [hsid]⟩
    rw [hcon] at this
    cases this

/-- Helper: under per-pair uniqueness, the upsert leaves exactly one row for
the (student, semester) pair. -/
theorem upsert_pair_count (db : DB) (sid sem eid : ℤ) (ay : String)
    (c : PublishComputation) (huniq : semester_result_unique db sid sem) :
    ((upsert_semester_result db sid sem eid ay c).semester_results.filter
      fun r => r.student_id == sid && r.semester == sem).length = 1 := by
  unfold upsert_semester_result
  cases h : find_semester_result db sid sem with
  | none =>
    have hnone : db.semester_results.filter
        (fun r => r.student_id == sid && r.semester == sem) = [] := by
      rw [List.filter_eq_nil_iff]
      exact List.find?_eq_none.mp h
    show ((db.semester_results ++ [fresh_semester_result sid sem eid ay c]).filter
        fun r => r.student_id == sid && r.semester == sem).length = 1
    rw [List.filter_append, hnone]
    simp [fresh_semester_result]
  | some r₀ =>
    have h' : (db.semester_results.find? fun r =>
        r.student_id == sid && r.semester == sem) = some r₀ := h
    have hr₀mem : r₀ ∈ db.semester_results := List.mem_of_find?_eq_some h'
    have hP : (r₀.student_id == sid && r₀.semester == sem) = true :=
      List.find?_some
        (p := fun r => r.student_id == sid && r.semester == sem) (a := r₀) h'
    have hsingle : db.semester_results.filter
        (fun r => r.student_id == sid && r.semester == sem) = [r₀] :=
      length_le_one_eq _ _ huniq (List.mem_filter.mpr ⟨hr₀mem, hP⟩)
    show ((db.semester_results.map fun r =>
        if (r.student_id == sid && r.semester == sem) = true then
          apply_result_fields r c else r).filter
        fun r => r.student_id == sid && r.semester == sem).length = 1
    rw [filter_map_comm _ _ _ ?hu]
    case hu =>
      intro x
      by_cases hx : (x.student_id == sid && x.semester == sem) = true
      · rw [if_pos hx]
        have hx' := hx
        rw [Bool.and_eq_true] at hx'
        show ((apply_result_fields x c).student_id == sid &&
          (apply_result_fields x c).semester == sem) = _
        have h1 : (apply_result_fields x c).student_id = x.student_id := rfl
        have h2 : (apply_result_fields x c).semester = x.semester := rfl
        rw [h1, h2, hx]
      · rw [if_neg hx]
    rw [hsingle]
    rfl

/-- Helper: summing any per-row valuation over the student's rows after the
upsert gives the written row's value plus the other-semester rows' values —
exactly the split the inline CGPA performs. -/
theorem upsert_student_sum {M : Type} [AddCommMonoid M] (db : DB)
    (sid sem eid : ℤ) (ay : String) (c : PublishComputation)
    (huniq : semester_result_unique db sid sem)
    (f : SemesterResults → M) (v : M)
    (happly : ∀ r, f (apply_result_fields r c) = v)
    (hfresh : f (fresh_semester_result sid sem eid ay c) = v) :
    (((upsert_semester_result db sid sem eid ay c).semester_results.filter
        fun r => r.student_id == sid).map f).sum =
      v + (((db.semester_results.filter fun r => r.student_id == sid).filter
        fun r => decide (r.semester ≠ sem)).map f).sum := by
  unfold upsert_semester_result
  cases h : find_semester_result db sid sem with
  | none =>
    have hnone := List.find?_eq_none.mp
      (show (db.semester_results.find? fun r =>
        r.student_id == sid && r.semester == sem) = none from h)
    show (((db.semester_results ++ [fresh_semester_result sid sem eid ay c]).filter
        fun r => r.student_id == sid).map f).sum = _
    rw [List.filter_append]
    have hkeep : ([fresh_semester_result sid sem eid ay c].filter
        fun r => r.student_id == sid) = [fresh_semester_result sid sem eid ay c] := by
      simp [fresh_semester_result]
    rw [hkeep, List.map_append, List.sum_append]
    have hall : ((db.semester_results.filter fun r => r.student_id == sid).filter
        fun r => decide (r.semester ≠ sem)) =
        db.semester_results.filter fun r => r.student_id == sid := by
      apply List.filter_eq_self.mpr
      intro r hr
      have hmem := (List.mem_filter.mp hr).1
      have hrs := (List.mem_filter.mp hr).2
      have hnr := hnone r hmem
      rw [Bool.and_eq_true, not_and] at hnr
      have hsem := hnr hrs
      simp only [decide_eq_true_eq]
      intro hcon
      exact hsem (by simp [hcon])
    rw [hall]
    simp only [List.map_cons, List.map_nil, List.sum_cons, List.sum_nil, hfresh]
    rw [add_zero, add_comm]
  | some r₀ =>
    have h' : (db.semester_results.find? fun r =>
        r.student_id == sid && r.semester == sem) = some r₀ := h
    have hr₀mem : r₀ ∈ db.semester_results := List.mem_of_find?_eq_some h'
    have hP : (r₀.student_id == sid && r₀.semester == sem) = true :=
      List.find?_some
        (p := fun r => r.student_id == sid && r.semester == sem) (a := r₀) h'
    have hsingle : db.semester_results.filter
        (fun r => r.student_id == sid && r.semester == sem) = [r₀] :=
      length_le_one_eq _ _ huniq (List.mem_filter.mpr ⟨hr₀mem, hP⟩)
    show (((db.semester_results.map fun r =>
        if (r.student_id == sid && r.semester == sem) = true then
          apply_result_fields r c else r).filter
        fun r => r.student_id == sid).map f).sum = _
    rw [filter_map_comm _ _ _ ?hu]
    case hu =>
      intro x
      by_cases hx : (x.student_id == sid && x.semester == sem) = true
      · rw [if_pos hx]; rfl
      · rw [if_neg hx]
    rw [List.map_map]
    rw [← sum_map_filter_split
      (db.semester_results.filter fun r => r.student_id == sid)
      (fun r => r.semester == sem)
      (f ∘ fun r =>
        if (r.student_id == sid && r.semester == sem) = true then
          apply_result_fields r c else r)]
    congr 1
    · have hQ : ((db.semester_results.filter fun r => r.student_id == sid).filter
          fun r => r.semester == sem) = [r₀] := by
        rw [List.filter_filter]
        rw [List.filter_congr fun x _ => Bool.and_comm (x.semester == sem)
          (x.student_id == sid)]
        exact hsingle
      rw [hQ]
      simp only [List.map_cons, List.map_nil, List.sum_cons, List.sum_nil,
        Function.comp]
      rw [if_pos hP, happly, add_zero]
    · have hfeq2 : ((db.semester_results.filter fun r => r.student_id == sid).filter
          fun r => decide (r.semester ≠ sem)) =
          ((db.semester_results.filter fun r => r.student_id == sid).filter
          fun r => !(r.semester == sem)) :=
        List.filter_congr (fun x _ => by by_cases hx : x.semester = sem <;> simp [hx])
      rw [hfeq2]
      apply congrArg
      apply List.map_congr_left
      intro r hr
      have hrne := (List.mem_filter.mp hr).2
      have hP2 : ¬((r.student_id == sid && r.semester == sem) = true) := by
        rw [Bool.and_eq_true]
        intro hcon
        rw [hcon.2] at hrne
        simp at hrne
      show f (if (r.student_id == sid && r.semester == sem) = true then
        apply_result_fields r c else r) = f r
      rw [if_neg hP2]

/-- C1: for every successfully published student (with at most one
pre-existing SemesterResult row for the pair, as the uniqueness constraint
guarantees), the CGPA the Result Publisher computes inline — this semester's
fresh (credits, gpa) combined with every other persisted semester — equals
the CGPA compute_cgpa returns on the store after the upsert. -/
theorem publisher_inline_cgpa_refines_compute_cgpa
    (db : DB) (sid sem : ℤ) (ay : String)
    (hstud : (find_student_by_id db sid).isSome = true)
    (huniq : semester_result_unique db sid sem)
    (hok : (publish_student_result db sid sem ay).2.success = true) :
    ∃ row resp,
      find_semester_result (publish_student_result db sid sem ay).1 sid sem =
        some row ∧
      calculate_cgpa (publish_student_result db sid sem ay).1 sid = .ok resp ∧
      resp.cgpa = row.cgpa := by
  rw [publish_item_success_eq] at hok
  unfold publish_ok at hok
  rw [Bool.and_eq_true] at hok
  obtain ⟨hne, hsome⟩ := hok
  rw [Bool.not_eq_true'] at hne
  obtain ⟨eid, heid⟩ := Option.isSome_iff_exists.mp hsome
  have hpub : (publish_student_result db sid sem ay).1 =
      overwrite_student_cgpa
        (upsert_semester_result db sid sem eid ay (publish_computation db sid sem))
        sid (publish_computation db sid sem).cgpa := by
    simp [publish_student_result, hne, heid]
  rw [hpub]
  set c := publish_computation db sid sem with hc
  set dbu := upsert_semester_result db sid sem eid ay c with hdbu
  set db' := overwrite_student_cgpa dbu sid c.cgpa with hdb'
  -- the upserted row
  obtain ⟨row, hfind, -, -, -, hrowcgpa, -, -, -⟩ :=
    upsert_find db sid sem eid ay c
  have hfind' : find_semester_result db' sid sem = some row := by
    unfold find_semester_result
    rw [hdb', overwrite_semres]
    exact hfind
  -- the student still resolves
  have hsome' : (find_student_by_id db' sid).isSome = true := by
    rw [hdb', overwrite_find_student_isSome]
    have : find_student_by_id dbu sid = find_student_by_id db sid := by
      unfold find_student_by_id
      rw [hdbu, upsert_students]
    rw [this]
    exact hstud
  obtain ⟨st', hst'⟩ := Option.isSome_iff_exists.mp hsome'
  -- the student's rows in the new store
  have hsemres : db'.semester_results = dbu.semester_results := by
    rw [hdb', overwrite_semres]
  have hfilter_ne : (db'.semester_results.filter
      fun r => r.student_id == sid) ≠ [] := by
    rw [hsemres, hdbu]
    exact upsert_student_filter_ne_nil db sid sem eid ay c
  have hrows_perm : List.Perm (get_semester_results_for_student db' sid)
      (db'.semester_results.filter fun r => r.student_id == sid) := by
    unfold get_semester_results_for_student student_results
    exact List.perm_insertionSort _ _
  have hne2 : (get_semester_results_for_student db' sid).isEmpty = false := by
    rw [List.isEmpty_eq_false]
    intro hcon
    apply hfilter_ne
    have := hrows_perm.length_eq
    rw [hcon] at this
    exact List.eq_nil_of_length_eq_zero this.symm
  -- sums over the new store's rows
  have hperm_db : List.Perm (get_semester_results_for_student db sid)
      (db.semester_results.filter fun r => r.student_id == sid) := by
    unfold get_semester_results_for_student student_results
    exact List.perm_insertionSort _ _
  have hothers_perm : List.Perm
      ((get_semester_results_for_student db sid).filter
        fun r => decide (r.semester ≠ sem))
      ((db.semester_results.filter fun r => r.student_id == sid).filter
        fun r => decide (r.semester ≠ sem)) :=
    hperm_db.filter _
  have htotal : ((get_semester_results_for_student db' sid).map
      fun r => r.total_credits_attempted.getD 0).sum =
      c.total_credits + (((get_semester_results_for_student db sid).filter
        fun r => decide (r.semester ≠ sem)).map
          fun r => r.total_credits_attempted.getD 0).sum := by
    rw [(hrows_perm.map _).sum_eq, (hothers_perm.map _).sum_eq]
    rw [hsemres, hdbu]
    exact upsert_student_sum db sid sem eid ay c huniq _ c.total_credits
      (fun r => rfl) rfl
  have hws : ((get_semester_results_for_student db' sid).map
      fun r => ((r.total_credits_attempted.getD 0 : ℕ) : ℚ) * r.gpa).sum =
      ((c.total_credits : ℕ) : ℚ) * c.gpa +
        (((get_semester_results_for_student db sid).filter
          fun r => decide (r.semester ≠ sem)).map
            fun r => ((r.total_credits_attempted.getD 0 : ℕ) : ℚ) * r.gpa).sum := by
    rw [(hrows_perm.map _).sum_eq, (hothers_perm.map _).sum_eq]
    rw [hsemres, hdbu]
    exact upsert_student_sum db sid sem eid ay c huniq _
      (((c.total_credits : ℕ) : ℚ) * c.gpa) (fun r => rfl) rfl
  -- the inline cgpa, unfolded
  have hccgpa : c.cgpa =
      (if 0 < c.total_credits + (((get_semester_results_for_student db sid).filter
          fun r => decide (r.semester ≠ sem)).map
            fun r => r.total_credits_attempted.getD 0).sum then
        pyRound2 ((((c.total_credits : ℕ) : ℚ) * c.gpa +
          (((get_semester_results_for_student db sid).filter
            fun r => decide (r.semester ≠ sem)).map
              fun r => ((r.total_credits_attempted.getD 0 : ℕ) : ℚ) * r.gpa).sum) /
          ((c.total_credits + (((get_semester_results_for_student db sid).filter
            fun r => decide (r.semester ≠ sem)).map
              fun r => r.total_credits_attempted.getD 0).sum : ℕ) : ℚ))
      else 0) := rfl
  refine ⟨row, { student_id := sid,
                 semesters := (get_semester_results_for_student db' sid).map fun r =>
                   { semester := r.semester, gpa := pyRound2 r.gpa,
                     credits := r.total_credits_attempted.getD 0 },
                 total_credits := ((get_semester_results_for_student db' sid).map
                   fun r => r.total_credits_attempted.getD 0).sum,
                 cgpa := if 0 < ((get_semester_results_for_student db' sid).map
                     fun r => r.total_credits_attempted.getD 0).sum then
                   pyRound2 ((((get_semester_results_for_student db' sid).map
                     fun r => ((r.total_credits_attempted.getD 0 : ℕ) : ℚ) * r.gpa).sum) /
                     ((((get_semester_results_for_student db' sid).map
                       fun r => r.total_credits_attempted.getD 0).sum : ℕ) : ℚ))
                   else 0 },
    hfind', ?_, ?_⟩
  · simp only [calculate_cgpa, hst', hne2, Bool.false_eq_true, if_false]
  · show (if 0 < ((get_semester_results_for_student db' sid).map
        fun r => r.total_credits_attempted.getD 0).sum then
      pyRound2 ((((get_semester_results_for_student db' sid).map
        fun r => ((r.total_credits_attempted.getD 0 : ℕ) : ℚ) * r.gpa).sum) /
        ((((get_semester_results_for_student db' sid).map
          fun r => r.total_credits_attempted.getD 0).sum : ℕ) : ℚ))
      else 0) = row.cgpa
    rw [htotal, hws, hrowcgpa, hccgpa]

/-- C1 witness: publishing student 1 of the example store stores a row whose
cgpa field is exactly what compute_cgpa then reads back from the updated
store. -/
theorem publisher_inline_cgpa_refines_compute_cgpa_witness :
    ∃ row resp,
      find_semester_result (publish_student_result exDB 1 1 "2024-2025").1 1 1 =
        some row ∧
      calculate_cgpa (publish_student_result exDB 1 1 "2024-2025").1 1 =
        .ok resp ∧
      resp.cgpa = row.cgpa :=
  publisher_inline_cgpa_refines_compute_cgpa exDB 1 1 "2024-2025" (by rfl)
    (by unfold semester_result_unique; decide) (by rfl)

/-- Helper: the success path of the per-student publish, as one equation. -/
theorem publish_success_eq (d : DB) (sid sem : ℤ) (ay : String) (eid : ℤ)
    (hne : (get_student_course_grades_for_semester d sid sem).isEmpty = false)
    (heid : find_enrollment_id_for_student_semester d sid sem = some eid) :
    (publish_student_result d sid sem ay).1 =
      overwrite_student_cgpa
        (upsert_semester_result d sid sem eid ay (publish_computation d sid sem))
        sid (publish_computation d sid sem).cgpa := by
  simp [publish_student_result, hne, heid]

/-- Helper: the inline CGPA of the publisher, written through its own
computed total credits and gpa plus the other-semester rows. -/
theorem publish_computation_cgpa_form (d : DB) (sid sem : ℤ) :
    (publish_computation d sid sem).cgpa =
      (if 0 < (publish_computation d sid sem).total_credits +
          (((get_semester_results_for_student d sid).filter
            fun r => decide (r.semester ≠ sem)).map
              fun r => r.total_credits_attempted.getD 0).sum then
        pyRound2 (((((publish_computation d sid sem).total_credits : ℕ) : ℚ) *
            (publish_computation d sid sem).gpa +
          (((get_semester_results_for_student d sid).filter
            fun r => decide (r.semester ≠ sem)).map
              fun r => ((r.total_credits_attempted.getD 0 : ℕ) : ℚ) * r.gpa).sum) /
          (((publish_computation d sid sem).total_credits +
            (((get_semester_results_for_student d sid).filter
              fun r => decide (r.semester ≠ sem)).map
                fun r => r.total_credits_attempted.getD 0).sum : ℕ) : ℚ))
      else 0) := rfl

/-- C6: publishing is idempotent under unchanged marks — running the
per-student publish twice for the same (student, semester) leaves exactly
one SemesterResult row for the pair (the second run updates in place), and
that row's gpa, cgpa, credit totals and status are identical after the
second run. -/
theorem publish_idempotent (db : DB) (sid sem : ℤ) (ay : String)
    (huniq : semester_result_unique db sid sem)
    (hok : (publish_student_result db sid sem ay).2.success = true) :
    ∃ row1 row2,
      find_semester_result (publish_student_result db sid sem ay).1 sid sem =
        some row1 ∧
      find_semester_result
        (publish_student_result (publish_student_result db sid sem ay).1
          sid sem ay).1 sid sem = some row2 ∧
      row2.gpa = row1.gpa ∧ row2.cgpa = row1.cgpa ∧
      row2.total_credits_attempted = row1.total_credits_attempted ∧
      row2.total_credits_earned = row1.total_credits_earned ∧
      row2.status = row1.status ∧
      ((publish_student_result (publish_student_result db sid sem ay).1
          sid sem ay).1.semester_results.filter
        fun r => r.student_id == sid && r.semester == sem).length = 1 := by
  rw [publish_item_success_eq] at hok
  unfold publish_ok at hok
  rw [Bool.and_eq_true] at hok
  obtain ⟨hne, hsome⟩ := hok
  rw [Bool.not_eq_true'] at hne
  obtain ⟨eid, heid⟩ := Option.isSome_iff_exists.mp hsome
  have hpub1 : (publish_student_result db sid sem ay).1 =
      overwrite_student_cgpa
        (upsert_semester_result db sid sem eid ay (publish_computation db sid sem))
        sid (publish_computation db sid sem).cgpa :=
    publish_success_eq db sid sem ay eid hne heid
  have hside : grade_side_eq (publish_student_result db sid sem ay).1 db :=
    publish_grade_side db sid sem ay
  have hq := grade_side_queries_eq _ db hside sid sem
  have hrows_eq : get_student_course_grades_for_semester
      (publish_student_result db sid sem ay).1 sid sem =
      get_student_course_grades_for_semester db sid sem := hq.1
  have hne1 : (get_student_course_grades_for_semester
      (publish_student_result db sid sem ay).1 sid sem).isEmpty = false := by
    rw [hrows_eq]; exact hne
  have heid1 : find_enrollment_id_for_student_semester
      (publish_student_result db sid sem ay).1 sid sem = some eid := by
    rw [hq.2.1]; exact heid
  have hpub2 : (publish_student_result (publish_student_result db sid sem ay).1
      sid sem ay).1 =
      overwrite_student_cgpa
        (upsert_semester_result (publish_student_result db sid sem ay).1 sid sem
          eid ay (publish_computation (publish_student_result db sid sem ay).1
            sid sem))
        sid (publish_computation (publish_student_result db sid sem ay).1
          sid sem).cgpa :=
    publish_success_eq (publish_student_result db sid sem ay).1 sid sem ay eid
      hne1 heid1
  have hsemres1 : (publish_student_result db sid sem ay).1.semester_results =
      (upsert_semester_result db sid sem eid ay
        (publish_computation db sid sem)).semester_results := by
    rw [hpub1, overwrite_semres]
  -- the first run's row and its fields
  obtain ⟨row1, hfind1, -, -, hg1, hcg1, hta1, hte1, hst1⟩ :=
    upsert_find db sid sem eid ay (publish_computation db sid sem)
  have hfind1' : find_semester_result (publish_student_result db sid sem ay).1
      sid sem = some row1 := by
    unfold find_semester_result
    rw [hsemres1]
    exact hfind1
  -- uniqueness still holds after the first run
  have huniq1 : semester_result_unique (publish_student_result db sid sem ay).1
      sid sem := by
    unfold semester_result_unique
    rw [hsemres1]
    rw [upsert_pair_count db sid sem eid ay (publish_computation db sid sem) huniq]
  -- the second computation agrees field by field
  have hfields : (publish_computation (publish_student_result db sid sem ay).1
        sid sem).gpa = (publish_computation db sid sem).gpa ∧
      (publish_computation (publish_student_result db sid sem ay).1
        sid sem).total_credits = (publish_computation db sid sem).total_credits ∧
      (publish_computation (publish_student_result db sid sem ay).1
        sid sem).credits_earned = (publish_computation db sid sem).credits_earned ∧
      (publish_computation (publish_student_result db sid sem ay).1
        sid sem).status = (publish_computation db sid sem).status := by
    unfold publish_computation
    rw [hrows_eq]
    exact ⟨rfl, rfl, rfl, rfl⟩
  have hothers_eq : (((publish_student_result db sid sem ay).1.semester_results.filter
        fun r => r.student_id == sid).filter fun r => decide (r.semester ≠ sem)) =
      ((db.semester_results.filter fun r => r.student_id == sid).filter
        fun r => decide (r.semester ≠ sem)) := by
    rw [hsemres1]
    exact upsert_other_semester_filter db sid sem eid ay
      (publish_computation db sid sem)
  have hperm1 : List.Perm
      ((get_semester_results_for_student (publish_student_result db sid sem ay).1
        sid).filter fun r => decide (r.semester ≠ sem))
      (((publish_student_result db sid sem ay).1.semester_results.filter
        fun r => r.student_id == sid).filter fun r => decide (r.semester ≠ sem)) := by
    unfold get_semester_results_for_student student_results
    exact (List.perm_insertionSort _ _).filter _
  have hperm0 : List.Perm
      ((get_semester_results_for_student db sid).filter
        fun r => decide (r.semester ≠ sem))
      ((db.semester_results.filter fun r => r.student_id == sid).filter
        fun r => decide (r.semester ≠ sem)) := by
    unfold get_semester_results_for_student student_results
    exact (List.perm_insertionSort _ _).filter _
  have hperm : List.Perm
      ((get_semester_results_for_student (publish_student_result db sid sem ay).1
        sid).filter fun r => decide (r.semester ≠ sem))
      ((get_semester_results_for_student db sid).filter
        fun r => decide (r.semester ≠ sem)) := by
    refine hperm1.trans ?_
    rw [hothers_eq]
    exact hperm0.symm
  have hcgpa_eq : (publish_computation (publish_student_result db sid sem ay).1
      sid sem).cgpa = (publish_computation db sid sem).cgpa := by
    rw [publish_computation_cgpa_form, publish_computation_cgpa_form]
    rw [hfields.1, hfields.2.1]
    rw [(hperm.map fun r => r.total_credits_attempted.getD 0).sum_eq]
    rw [(hperm.map fun r =>
      ((r.total_credits_attempted.getD 0 : ℕ) : ℚ) * r.gpa).sum_eq]
  -- the second run's row
  obtain ⟨row2, hfind2, -, -, hg2, hcg2, hta2, hte2, hst2⟩ :=
    upsert_find (publish_student_result db sid sem ay).1 sid sem eid ay
      (publish_computation (publish_student_result db sid sem ay).1 sid sem)
  have hfind2' : find_semester_result
      (publish_student_result (publish_student_result db sid sem ay).1
        sid sem ay).1 sid sem = some row2 := by
    unfold find_semester_result
    rw [hpub2, overwrite_semres]
    exact hfind2
  refine ⟨row1, row2, hfind1', hfind2', ?_, ?_, ?_, ?_, ?_, ?_⟩
  · rw [hg2, hg1, hfields.1]
  · rw [hcg2, hcg1, hcgpa_eq]
  · rw [hta2, hta1, hfields.2.1]
  · rw [hte2, hte1, hfields.2.2.1]
  · rw [hst2, hst1, hfields.2.2.2]
  · rw [hpub2, overwrite_semres]
    exact upsert_pair_count (publish_student_result db sid sem ay).1 sid sem eid ay
      (publish_computation (publish_student_result db sid sem ay).1 sid sem) huniq1

/-- C6 witness: publishing student 1 of the example store twice leaves one
row for the pair with identical gpa, cgpa, credit totals and status. -/
theorem publish_idempotent_witness :
    ∃ row1 row2,
      find_semester_result (publish_student_result exDB 1 1 "2024-2025").1 1 1 =
        some row1 ∧
      find_semester_result
        (publish_student_result (publish_student_result exDB 1 1 "2024-2025").1
          1 1 "2024-2025").1 1 1 = some row2 ∧
      row2.gpa = row1.gpa ∧ row2.cgpa = row1.cgpa ∧
      row2.total_credits_attempted = row1.total_credits_attempted ∧
      row2.total_credits_earned = row1.total_credits_earned ∧
      row2.status = row1.status ∧
      ((publish_student_result (publish_student_result exDB 1 1 "2024-2025").1
          1 1 "2024-2025").1.semester_results.filter
        fun r => r.student_id == 1 && r.semester == 1).length = 1 :=
  publish_idempotent exDB 1 1 "2024-2025"
    (by unfold semester_result_unique; decide) (by rfl)

/-- C4 (amended) witness: the three concrete mutations against the example
store — the fresh submission, the one-item bulk submission and the 40-mark
update — each leave a store satisfying the upper-bound invariant. -/
theorem marks_upper_bound_preserved_witness :
    marks_within_max exDBOk ∧ marks_within_max exDBOk ∧ marks_within_max exDBUpd :=
  ⟨marks_upper_bound_preserved.1 exDB exReqOk "fac1" exDBOk exGradeOk
      exDB_marks_ok submit_exReqOk_eq,
    marks_upper_bound_preserved.2.1 exDB exBulkReq "fac1" exDBOk exBulkResp
      exDB_marks_ok bulk_ex_eq,
    marks_upper_bound_preserved.2.2 exDB 1 exUpdReq "fac2" exDBUpd exGradeUpd
      exDB_marks_ok upd_ex_eq⟩

end UniDash
